import Mathlib

/-!
Shallow embedding of the `nesemu` repository core (src/nesemu/src/mem.rs and
src/nesemu/src/cpu.rs): the NES CPU-side memory bus and the 6502 interpreter.

Machine integers are modelled as `Nat` with explicit `% 2^8` / `% 2^16`
where the Rust code performs wrapping arithmetic; the fixed-size `u8` arrays
of `Memory` become functions `Nat → Nat` that the Rust code only ever indexes
inside their bounds; `prg_rom : Vec<u8>` becomes `List Nat`.  The fallible PRG
read path (Rust panics on `% 0` and on out-of-bounds indexing) is captured by
`Memory.readChecked`, which returns `Option Nat`.
-/

namespace NesEmu

/-- Embedding of `struct Memory` (mem.rs lines 3-10).  Each fixed-size `u8`
array is modelled as a total function on `Nat`; the code only reads the
indices the hardware map produces (`% 0x0800`, `% 8`, `- 0x4000`, `- 0x6000`). -/
structure Memory where
  cpu_ram : Nat → Nat            -- [u8; 0x0800], $0000-$07FF
  prg_rom : List Nat             -- Vec<u8>, $8000-$FFFF (external)
  cartridge_ram : Nat → Nat      -- [u8; 0x2000], $6000-$7FFF
  ppu_registers : Nat → Nat      -- [u8; 8], $2000-$2007
  apu_io_registers : Nat → Nat   -- [u8; 0x18], $4000-$4017
  oam_dma : Nat                  -- u8, $4014

/-- Embedding of `Memory::new` (mem.rs lines 13-22): zero-filled working
memory around the supplied PRG-ROM image. -/
def Memory.new (prg_rom : List Nat) : Memory :=
  { cpu_ram := fun _ => 0
    prg_rom := prg_rom
    cartridge_ram := fun _ => 0
    ppu_registers := fun _ => 0
    apu_io_registers := fun _ => 0
    oam_dma := 0 }

/-- Embedding of `Memory::read` (mem.rs lines 24-52).  The Rust `match` arms
are disjoint ranges, rendered as a guard chain in source order.  In the
PRG-ROM arm the Rust code computes `(addr - 0x8000) % prg_rom.len()` and
indexes the vector; for a non-empty ROM that index is in bounds and `getD`
coincides with the Rust indexing (for an empty ROM Rust panics on `% 0`;
that failure path is modelled by `Memory.readChecked` below). -/
def Memory.read (m : Memory) (addr : Nat) : Nat :=
  if addr ≤ 0x1FFF then
    -- CPU internal RAM (mirrored every 0x800 bytes)
    m.cpu_ram (addr % 0x0800)
  else if addr ≤ 0x3FFF then
    -- PPU registers (mirrored every 8 bytes)
    m.ppu_registers ((addr - 0x2000) % 8)
  else if addr ≤ 0x4013 ∨ addr = 0x4015 then
    -- APU and I/O
    m.apu_io_registers (addr - 0x4000)
  else if addr = 0x4014 then
    m.oam_dma
  else if 0x6000 ≤ addr ∧ addr ≤ 0x7FFF then
    -- Cartridge RAM (optional save RAM)
    m.cartridge_ram (addr - 0x6000)
  else if 0x8000 ≤ addr ∧ addr ≤ 0xFFFF then
    -- PRG-ROM (no mirroring)
    m.prg_rom.getD ((addr - 0x8000) % m.prg_rom.length) 0
  else 0  -- Unmapped areas return 0

/-- `Memory::read` with the Rust failure path made explicit: in the PRG-ROM
arm, `(addr - 0x8000) % self.prg_rom.len()` panics when the ROM vector is
empty (remainder by zero, and the subsequent indexing would be out of
bounds); that panic is modelled as `none`. -/
def Memory.readChecked (m : Memory) (addr : Nat) : Option Nat :=
  if addr ≤ 0x1FFF then
    some (m.cpu_ram (addr % 0x0800))
  else if addr ≤ 0x3FFF then
    some (m.ppu_registers ((addr - 0x2000) % 8))
  else if addr ≤ 0x4013 ∨ addr = 0x4015 then
    some (m.apu_io_registers (addr - 0x4000))
  else if addr = 0x4014 then
    some m.oam_dma
  else if 0x6000 ≤ addr ∧ addr ≤ 0x7FFF then
    some (m.cartridge_ram (addr - 0x6000))
  else if 0x8000 ≤ addr ∧ addr ≤ 0xFFFF then
    if h : m.prg_rom.length = 0 then
      none  -- Rust: `(addr - 0x8000) % 0` panics
    else
      some (m.prg_rom.get
        ⟨(addr - 0x8000) % m.prg_rom.length, Nat.mod_lt _ (Nat.pos_of_ne_zero h)⟩)
  else some 0

/-- Embedding of `Memory::write` (mem.rs lines 54-84): same decode as `read`;
stores update the backing array at the mirrored index; PRG-ROM writes and
unmapped writes leave the memory unchanged. -/
def Memory.write (m : Memory) (addr : Nat) (value : Nat) : Memory :=
  if addr ≤ 0x1FFF then
    -- CPU internal RAM
    { m with cpu_ram := fun i => if i = addr % 0x0800 then value else m.cpu_ram i }
  else if addr ≤ 0x3FFF then
    -- PPU registers
    { m with ppu_registers :=
        fun i => if i = (addr - 0x2000) % 8 then value else m.ppu_registers i }
  else if addr ≤ 0x4013 ∨ addr = 0x4015 then
    -- APU and I/O
    { m with apu_io_registers :=
        fun i => if i = addr - 0x4000 then value else m.apu_io_registers i }
  else if addr = 0x4014 then
    { m with oam_dma := value }
  else if 0x6000 ≤ addr ∧ addr ≤ 0x7FFF then
    -- Cartridge SRAM
    { m with cartridge_ram :=
        fun i => if i = addr - 0x6000 then value else m.cartridge_ram i }
  else if 0x8000 ≤ addr ∧ addr ≤ 0xFFFF then
    m  -- PRG-ROM is read-only: ignore writes to ROM
  else m

/-- Embedding of `Memory::read_u16` (mem.rs lines 98-102): little-endian
composition of two reads, the second address formed with `wrapping_add(1)`. -/
def Memory.read_u16 (m : Memory) (addr : Nat) : Nat :=
  let lo := m.read addr
  let hi := m.read ((addr + 1) % 0x10000)
  (hi <<< 8) ||| lo

/-- `Memory::read_u16` with the Rust failure path made explicit: it fails
exactly when one of its two component reads does (a PRG read on an empty
PRG-ROM vector, mem.rs line 47). -/
def Memory.read_u16Checked (m : Memory) (addr : Nat) : Option Nat :=
  match m.readChecked addr, m.readChecked ((addr + 1) % 0x10000) with
  | some lo, some hi => some ((hi <<< 8) ||| lo)
  | _, _ => none

/-- Well-formedness of a `Memory` value: every stored cell holds a byte.
In Rust this is enforced by the `u8` element types; in the `Nat` embedding it
is an explicit invariant (each quantifier is bounded so that the predicate is
decidable on concrete memories). -/
def Memory.Wf (m : Memory) : Prop :=
  (∀ i < 0x0800, m.cpu_ram i < 0x100) ∧
  (∀ b ∈ m.prg_rom, b < 0x100) ∧
  (∀ i < 0x2000, m.cartridge_ram i < 0x100) ∧
  (∀ i < 8, m.ppu_registers i < 0x100) ∧
  (∀ i < 0x18, m.apu_io_registers i < 0x100) ∧
  m.oam_dma < 0x100

theorem Memory.read_lt (m : Memory) (hm : m.Wf) (addr : Nat) : m.read addr < 0x100 := by
  obtain ⟨h1, h2, h3, h4, h5, h6⟩ := hm
  unfold Memory.read
  split_ifs with c1 c2 c3 c4 c5 c6
  · exact h1 _ (Nat.mod_lt _ (by norm_num))
  · exact h4 _ (Nat.mod_lt _ (by norm_num))
  · rcases c3 with c3 | c3
    · exact h5 _ (by omega)
    · exact h5 _ (by omega)
  · exact h6
  · exact h3 _ (by omega)
  · by_cases hl : m.prg_rom.length = 0
    · simp [List.length_eq_zero.mp hl]
    · rw [List.getD_eq_getElem _ _ (Nat.mod_lt _ (Nat.pos_of_ne_zero hl))]
      exact h2 _ (List.getElem_mem _)
  · norm_num

/-- Embedding of `struct Cpu` (cpu.rs lines 5-12): the 6502 register file.
`pc` is a `u16`, the rest are `u8`; here all `Nat`, wrapped explicitly. -/
structure Cpu where
  pc : Nat      -- Program Counter
  sp : Nat      -- Stack Pointer
  a : Nat       -- Accumulator
  x : Nat       -- X Register
  y : Nat       -- Y Register
  status : Nat  -- Processor Status

-- 6502 Status Flag Constants (cpu.rs lines 15-22)
def CARRY_FLAG : Nat := 0b00000001     -- Bit 0
def ZERO_FLAG : Nat := 0b00000010      -- Bit 1
def INTERRUPT_FLAG : Nat := 0b00000100 -- Bit 2
def DECIMAL_FLAG : Nat := 0b00001000   -- Bit 3
def BREAK_FLAG : Nat := 0b00010000     -- Bit 4
def UNUSED_FLAG : Nat := 0b00100000    -- Bit 5
def OVERFLOW_FLAG : Nat := 0b01000000  -- Bit 6
def NEGATIVE_FLAG : Nat := 0b10000000  -- Bit 7

/-- Embedding of `Cpu::new` (cpu.rs lines 26-35). -/
def Cpu.new : Cpu :=
  { pc := 0, sp := 0xFD, a := 0, x := 0, y := 0, status := 0x24 }

/-- Embedding of `Cpu::reset` (cpu.rs lines 37-41): re-read the reset vector
at 0xFFFC into PC.  The `println!` is diagnostics outside the core state, and
the memory is taken by shared reference, so no memory is written. -/
def Cpu.reset (cpu : Cpu) (memory : Memory) : Cpu :=
  { cpu with pc := memory.read_u16 0xFFFC }

/-- `Cpu::reset` with the Rust failure path made explicit: the reset-vector
fetch `memory.read_u16(0xFFFC)` always reads the PRG region, so on a memory
built from an empty PRG-ROM vector it panics (`% 0`, mem.rs line 47) and
`reset` never returns; that panic is modelled as `none`. -/
def Cpu.resetChecked (cpu : Cpu) (memory : Memory) : Option Cpu :=
  (memory.read_u16Checked 0xFFFC).map fun v => { cpu with pc := v }

/-- Embedding of `update_zero_and_negative_flags` (cpu.rs lines 43-47).
The Rust mask `!(0b10 | 0b10000000)` on `u8` is `0b01111101`. -/
def update_zero_and_negative_flags (cpu : Cpu) (result : Nat) : Cpu :=
  { cpu with status :=
      (cpu.status &&& 0b01111101)
      ||| (if result = 0 then 0b10 else 0)
      ||| (if result &&& 0x80 ≠ 0 then 0b10000000 else 0) }

/-- Embedding of `push_u8` (cpu.rs lines 49-53): write at `0x0100 | SP`, then
`SP ← SP.wrapping_sub(1)` (rendered `(sp + 0xFF) % 0x100`). -/
def push_u8 (cpu : Cpu) (memory : Memory) (val : Nat) : Cpu × Memory :=
  let addr := 0x0100 ||| cpu.sp
  let memory := memory.write addr val
  ({ cpu with sp := (cpu.sp + 0xFF) % 0x100 }, memory)

/-- Embedding of `push_u16` (cpu.rs lines 55-58): high byte `(val >> 8) as u8`
first, then low byte `(val & 0xFF) as u8`. -/
def push_u16 (cpu : Cpu) (memory : Memory) (val : Nat) : Cpu × Memory :=
  let (cpu, memory) := push_u8 cpu memory ((val >>> 8) % 0x100)
  push_u8 cpu memory ((val &&& 0xFF) % 0x100)

/-- Embedding of `pull_u16` (cpu.rs lines 60-66): increment SP and read low,
increment SP and read high, compose `(hi << 8) | lo`. -/
def pull_u16 (cpu : Cpu) (memory : Memory) : Cpu × Nat :=
  let sp1 := (cpu.sp + 1) % 0x100
  let lo := memory.read (0x0100 ||| sp1)
  let sp2 := (sp1 + 1) % 0x100
  let hi := memory.read (0x0100 ||| sp2)
  ({ cpu with sp := sp2 }, (hi <<< 8) ||| lo)

/-- Embedding of `pull_status` (cpu.rs lines 69-74): bits 4 and 5 of the
pulled byte are discarded in favour of the current values
(`(status & 0b11001111) | (self.status & 0b00110000)`). -/
def pull_status (cpu : Cpu) (memory : Memory) : Cpu :=
  let sp1 := (cpu.sp + 1) % 0x100
  let status := memory.read (0x0100 ||| sp1)
  { cpu with sp := sp1,
             status := (status &&& 0b11001111) ||| (cpu.status &&& 0b00110000) }

/-- Embedding of `adc` (cpu.rs lines 77-116).  `result` is the `u16` sum
`a + m + carry` (no 16-bit overflow is possible for byte inputs); the flag
word is rebuilt by the same or/and mask sequence as the Rust code. -/
def adc (cpu : Cpu) (operand : Nat) : Cpu :=
  let carry := cpu.status &&& 0b00000001
  let a := cpu.a
  let m := operand
  let result := a + m + carry
  let status := if result > 0xFF then cpu.status ||| 0b00000001
                else cpu.status &&& 0b11111110
  let result_u8 := result % 0x100
  let status := if result_u8 = 0 then status ||| 0b00000010
                else status &&& 0b11111101
  let status := if result_u8 &&& 0x80 ≠ 0 then status ||| 0b10000000
                else status &&& 0b01111111
  let overflow := ((a ^^^ result) &&& (m ^^^ result) &&& 0x80) ≠ 0
  let status := if overflow then status ||| 0b01000000
                else status &&& 0b10111111
  { cpu with status := status, a := result_u8 }

/-- Embedding of `sbc` (cpu.rs lines 119-159).  `result` renders the `u16`
computation `a.wrapping_sub(m).wrapping_sub(borrow)` (exact for `m < 0x10000`,
which every caller guarantees since the operand is a byte). -/
def sbc (cpu : Cpu) (operand : Nat) : Cpu :=
  -- Invert the carry flag for subtraction (we borrow if carry is 0)
  let borrow := if cpu.status &&& 0b00000001 = 0 then 1 else 0
  let a := cpu.a
  let m := operand
  let result := ((a + 0x10000 - m) % 0x10000 + 0x10000 - borrow) % 0x10000
  -- Update Carry flag (bit 0) - set if result >= 0
  let status := if result ≤ 0xFF then cpu.status ||| 0b00000001
                else cpu.status &&& 0b11111110
  let result_u8 := result % 0x100
  let status := if result_u8 = 0 then status ||| 0b00000010
                else status &&& 0b11111101
  let status := if result_u8 &&& 0x80 ≠ 0 then status ||| 0b10000000
                else status &&& 0b01111111
  let overflow := ((a ^^^ m) &&& (a ^^^ result) &&& 0x80) ≠ 0
  let status := if overflow then status ||| 0b01000000
                else status &&& 0b10111111
  { cpu with status := status, a := result_u8 }

/-- Embedding of `and` (cpu.rs lines 162-165). -/
def and (cpu : Cpu) (operand : Nat) : Cpu :=
  let cpu := { cpu with a := cpu.a &&& operand }
  update_zero_and_negative_flags cpu cpu.a

/-- Embedding of `ora` (cpu.rs lines 168-171). -/
def ora (cpu : Cpu) (operand : Nat) : Cpu :=
  let cpu := { cpu with a := cpu.a ||| operand }
  update_zero_and_negative_flags cpu cpu.a

/-- Embedding of `eor` (cpu.rs lines 174-177). -/
def eor (cpu : Cpu) (operand : Nat) : Cpu :=
  let cpu := { cpu with a := cpu.a ^^^ operand }
  update_zero_and_negative_flags cpu cpu.a

/-- Embedding of `bit` (cpu.rs lines 180-201). -/
def bit (cpu : Cpu) (operand : Nat) : Cpu :=
  let status := if cpu.a &&& operand = 0 then cpu.status ||| 0b00000010
                else cpu.status &&& 0b11111101
  let status := if operand &&& 0x80 ≠ 0 then status ||| 0b10000000
                else status &&& 0b01111111
  let status := if operand &&& 0x40 ≠ 0 then status ||| 0b01000000
                else status &&& 0b10111111
  { cpu with status := status }

/-- Embedding of `asl` (cpu.rs lines 205-218).  `operand << 1` on `u8`
truncates the shifted-out bit: rendered `(operand <<< 1) % 0x100`. -/
def asl (cpu : Cpu) (operand : Nat) : Cpu × Nat :=
  let result := (operand <<< 1) % 0x100
  let cpu := { cpu with status :=
    if operand &&& 0x80 ≠ 0 then cpu.status ||| 0b00000001
    else cpu.status &&& 0b11111110 }
  (update_zero_and_negative_flags cpu result, result)

/-- Embedding of `lsr` (cpu.rs lines 220-234).  Note: the Rust code has the
call to `update_zero_and_negative_flags` commented out and instead only
clears bit 7 (`self.status &= 0b01111111`); the zero flag is NOT updated. -/
def lsr (cpu : Cpu) (operand : Nat) : Cpu × Nat :=
  let result := operand >>> 1
  let cpu := { cpu with status :=
    if operand &&& 0x01 ≠ 0 then cpu.status ||| 0b00000001
    else cpu.status &&& 0b11111110 }
  ({ cpu with status := cpu.status &&& 0b01111111 }, result)

/-- Embedding of `rol` (cpu.rs lines 237-252): `result` is the `u16` value
`(operand << 1) | carry_in` truncated to `u8` at the end. -/
def rol (cpu : Cpu) (operand : Nat) : Cpu × Nat :=
  let carry_in := cpu.status &&& 0b00000001
  let result := (operand <<< 1) ||| carry_in
  let cpu := { cpu with status :=
    if operand &&& 0x80 ≠ 0 then cpu.status ||| 0b00000001
    else cpu.status &&& 0b11111110 }
  let result_u8 := result % 0x100
  (update_zero_and_negative_flags cpu result_u8, result_u8)

/-- Embedding of `ror` (cpu.rs lines 255-268). -/
def ror (cpu : Cpu) (operand : Nat) : Cpu × Nat :=
  let carry_in := (cpu.status &&& 0b00000001) <<< 7
  let result := (operand >>> 1) ||| carry_in
  let cpu := { cpu with status :=
    if operand &&& 0x01 ≠ 0 then cpu.status ||| 0b00000001
    else cpu.status &&& 0b11111110 }
  (update_zero_and_negative_flags cpu result, result)

/-- Embedding of `cmp` (cpu.rs lines 271-296): `result` renders the `u16`
`a.wrapping_sub(m)` (exact for `m < 0x10000`). -/
def cmp (cpu : Cpu) (operand : Nat) : Cpu :=
  let a := cpu.a
  let m := operand
  let result := (a + 0x10000 - m) % 0x10000
  let status := if a ≥ m then cpu.status ||| 0b00000001
                else cpu.status &&& 0b11111110
  let status := if result % 0x100 = 0 then status ||| 0b00000010
                else status &&& 0b11111101
  let status := if result % 0x100 &&& 0x80 ≠ 0 then status ||| 0b10000000
                else status &&& 0b01111111
  { cpu with status := status }

/-- Embedding of `cpx` (cpu.rs lines 299-324); same shape as `cmp` on X. -/
def cpx (cpu : Cpu) (operand : Nat) : Cpu :=
  let x := cpu.x
  let m := operand
  let result := (x + 0x10000 - m) % 0x10000
  let status := if x ≥ m then cpu.status ||| 0b00000001
                else cpu.status &&& 0b11111110
  let status := if result % 0x100 = 0 then status ||| 0b00000010
                else status &&& 0b11111101
  let status := if result % 0x100 &&& 0x80 ≠ 0 then status ||| 0b10000000
                else status &&& 0b01111111
  { cpu with status := status }

/-- Embedding of `cpy` (cpu.rs lines 327-352); same shape as `cmp` on Y. -/
def cpy (cpu : Cpu) (operand : Nat) : Cpu :=
  let y := cpu.y
  let m := operand
  let result := (y + 0x10000 - m) % 0x10000
  let status := if y ≥ m then cpu.status ||| 0b00000001
                else cpu.status &&& 0b11111110
  let status := if result % 0x100 = 0 then status ||| 0b00000010
                else status &&& 0b11111101
  let status := if result % 0x100 &&& 0x80 ≠ 0 then status ||| 0b10000000
                else status &&& 0b01111111
  { cpu with status := status }

/-- `offset as i8 as i16 as u16` for a byte `b < 0x100`: sign extension of a
byte into a 16-bit word (used by the relative branches). -/
def sign_extend (b : Nat) : Nat :=
  if b &&& 0x80 ≠ 0 then 0xFF00 + b else b

/-- Body of the big `match opcode` in `exec_next_instr` (cpu.rs lines
359-1756), split out so the dispatch can be reasoned about per opcode.  On
entry `cpu.pc` has already been advanced past the opcode byte.  The second
`0x00` arm of the Rust source (cpu.rs lines 1665-1672) is unreachable — the
first arm (cpu.rs lines 519-525) shadows it — so only the first is embedded.
The default arm (cpu.rs lines 1741-1755) only logs the opcode and PC to a
file and stdout, which is diagnostics outside the core state: the registers
and memory are returned unchanged. -/
def execOpcode (opcode : Nat) (cpu : Cpu) (memory : Memory) : Cpu × Memory :=
  match opcode with
  -- ----- LDA,LDX,LDY Instructions -----
  | 0xA9 => -- LDA Immediate
    let value := memory.read cpu.pc
    let cpu := { cpu with pc := (cpu.pc + 1) % 0x10000 }
    let cpu := { cpu with a := value }
    (update_zero_and_negative_flags cpu cpu.a, memory)
  | 0xA5 => -- LDA Zero Page
    let addr := memory.read cpu.pc
    let cpu := { cpu with pc := (cpu.pc + 1) % 0x10000 }
    let cpu := { cpu with a := memory.read addr }
    (update_zero_and_negative_flags cpu cpu.a, memory)
  | 0xB5 => -- LDA Zero Page,X
    let addr := (memory.read cpu.pc + cpu.x) % 0x100
    let cpu := { cpu with pc := (cpu.pc + 1) % 0x10000 }
    let cpu := { cpu with a := memory.read addr }
    (update_zero_and_negative_flags cpu cpu.a, memory)
  | 0xAD => -- LDA Absolute
    let lo := memory.read cpu.pc
    let hi := memory.read ((cpu.pc + 1) % 0x10000)
    let cpu := { cpu with pc := (cpu.pc + 2) % 0x10000 }
    let addr := (hi <<< 8) ||| lo
    let cpu := { cpu with a := memory.read addr }
    (update_zero_and_negative_flags cpu cpu.a, memory)
  | 0xBD => -- LDA Absolute,X
    let lo := memory.read cpu.pc
    let hi := memory.read ((cpu.pc + 1) % 0x10000)
    let cpu := { cpu with pc := (cpu.pc + 2) % 0x10000 }
    let base := (hi <<< 8) ||| lo
    let addr := (base + cpu.x) % 0x10000
    let cpu := { cpu with a := memory.read addr }
    (update_zero_and_negative_flags cpu cpu.a, memory)
  | 0xB9 => -- LDA Absolute,Y
    let lo := memory.read cpu.pc
    let hi := memory.read ((cpu.pc + 1) % 0x10000)
    let cpu := { cpu with pc := (cpu.pc + 2) % 0x10000 }
    let base := (hi <<< 8) ||| lo
    let addr := (base + cpu.y) % 0x10000
    let cpu := { cpu with a := memory.read addr }
    (update_zero_and_negative_flags cpu cpu.a, memory)
  | 0xA1 => -- LDA (Indirect,X)
    let base := (memory.read cpu.pc + cpu.x) % 0x100
    let cpu := { cpu with pc := (cpu.pc + 1) % 0x10000 }
    let lo := memory.read base
    let hi := memory.read ((base + 1) % 0x100)
    let addr := (hi <<< 8) ||| lo
    let cpu := { cpu with a := memory.read addr }
    (update_zero_and_negative_flags cpu cpu.a, memory)
  | 0xB1 => -- LDA (Indirect),Y
    let base := memory.read cpu.pc
    let cpu := { cpu with pc := (cpu.pc + 1) % 0x10000 }
    let lo := memory.read base
    let hi := memory.read ((base + 1) % 0x100)
    let addr := (((hi <<< 8) ||| lo) + cpu.y) % 0x10000
    let cpu := { cpu with a := memory.read addr }
    (update_zero_and_negative_flags cpu cpu.a, memory)
  | 0xA2 => -- LDX Immediate
    let value := memory.read cpu.pc
    let cpu := { cpu with pc := (cpu.pc + 1) % 0x10000 }
    let cpu := { cpu with x := value }
    (update_zero_and_negative_flags cpu cpu.x, memory)
  | 0xA6 => -- LDX Zero Page
    let addr := memory.read cpu.pc
    let cpu := { cpu with pc := (cpu.pc + 1) % 0x10000 }
    let cpu := { cpu with x := memory.read addr }
    (update_zero_and_negative_flags cpu cpu.x, memory)
  | 0xB6 => -- LDX Zero Page,Y
    let addr := (memory.read cpu.pc + cpu.y) % 0x100
    let cpu := { cpu with pc := (cpu.pc + 1) % 0x10000 }
    let cpu := { cpu with x := memory.read addr }
    (update_zero_and_negative_flags cpu cpu.x, memory)
  | 0xAE => -- LDX Absolute
    let lo := memory.read cpu.pc
    let hi := memory.read ((cpu.pc + 1) % 0x10000)
    let cpu := { cpu with pc := (cpu.pc + 2) % 0x10000 }
    let addr := (hi <<< 8) ||| lo
    let cpu := { cpu with x := memory.read addr }
    (update_zero_and_negative_flags cpu cpu.x, memory)
  | 0xBE => -- LDX Absolute,Y
    let lo := memory.read cpu.pc
    let hi := memory.read ((cpu.pc + 1) % 0x10000)
    let cpu := { cpu with pc := (cpu.pc + 2) % 0x10000 }
    let base := (hi <<< 8) ||| lo
    let addr := (base + cpu.y) % 0x10000
    let cpu := { cpu with x := memory.read addr }
    (update_zero_and_negative_flags cpu cpu.x, memory)
  | 0xA0 => -- LDY Immediate
    let value := memory.read cpu.pc
    let cpu := { cpu with pc := (cpu.pc + 1) % 0x10000 }
    let cpu := { cpu with y := value }
    (update_zero_and_negative_flags cpu cpu.y, memory)
  | 0xA4 => -- LDY Zero Page
    let addr := memory.read cpu.pc
    let cpu := { cpu with pc := (cpu.pc + 1) % 0x10000 }
    let cpu := { cpu with y := memory.read addr }
    (update_zero_and_negative_flags cpu cpu.y, memory)
  | 0xB4 => -- LDY Zero Page,X
    let addr := (memory.read cpu.pc + cpu.x) % 0x100
    let cpu := { cpu with pc := (cpu.pc + 1) % 0x10000 }
    let cpu := { cpu with y := memory.read addr }
    (update_zero_and_negative_flags cpu cpu.y, memory)
  | 0xAC => -- LDY Absolute
    let lo := memory.read cpu.pc
    let hi := memory.read ((cpu.pc + 1) % 0x10000)
    let cpu := { cpu with pc := (cpu.pc + 2) % 0x10000 }
    let addr := (hi <<< 8) ||| lo
    let cpu := { cpu with y := memory.read addr }
    (update_zero_and_negative_flags cpu cpu.y, memory)
  | 0xBC => -- LDY Absolute,X
    let lo := memory.read cpu.pc
    let hi := memory.read ((cpu.pc + 1) % 0x10000)
    let cpu := { cpu with pc := (cpu.pc + 2) % 0x10000 }
    let base := (hi <<< 8) ||| lo
    let addr := (base + cpu.x) % 0x10000
    let cpu := { cpu with y := memory.read addr }
    (update_zero_and_negative_flags cpu cpu.y, memory)
  | 0x00 => -- BRK (Software interrupt) — first arm, cpu.rs lines 519-525
    let cpu := { cpu with pc := (cpu.pc + 1) % 0x10000 }
    let (cpu, memory) := push_u16 cpu memory cpu.pc
    let (cpu, memory) := push_u8 cpu memory (cpu.status ||| 0x10) -- Set Break flag
    let cpu := { cpu with status := cpu.status ||| 0x04 } -- Set Interrupt Disable
    ({ cpu with pc := memory.read_u16 0xFFFE }, memory)
  -- ----- STA, STX, STY Instructions -----
  | 0x85 => -- STA Zero Page
    let addr := memory.read cpu.pc
    let cpu := { cpu with pc := (cpu.pc + 1) % 0x10000 }
    (cpu, memory.write addr cpu.a)
  | 0x95 => -- STA Zero Page,X
    let addr := (memory.read cpu.pc + cpu.x) % 0x100
    let cpu := { cpu with pc := (cpu.pc + 1) % 0x10000 }
    (cpu, memory.write addr cpu.a)
  | 0x8D => -- STA Absolute
    let lo := memory.read cpu.pc
    let hi := memory.read ((cpu.pc + 1) % 0x10000)
    let cpu := { cpu with pc := (cpu.pc + 2) % 0x10000 }
    let addr := (hi <<< 8) ||| lo
    (cpu, memory.write addr cpu.a)
  | 0x9D => -- STA Absolute,X
    let lo := memory.read cpu.pc
    let hi := memory.read ((cpu.pc + 1) % 0x10000)
    let cpu := { cpu with pc := (cpu.pc + 2) % 0x10000 }
    let base := (hi <<< 8) ||| lo
    let addr := (base + cpu.x) % 0x10000
    (cpu, memory.write addr cpu.a)
  | 0x99 => -- STA Absolute,Y
    let lo := memory.read cpu.pc
    let hi := memory.read ((cpu.pc + 1) % 0x10000)
    let cpu := { cpu with pc := (cpu.pc + 2) % 0x10000 }
    let base := (hi <<< 8) ||| lo
    let addr := (base + cpu.y) % 0x10000
    (cpu, memory.write addr cpu.a)
  | 0x81 => -- STA (Indirect,X)
    let base := (memory.read cpu.pc + cpu.x) % 0x100
    let cpu := { cpu with pc := (cpu.pc + 1) % 0x10000 }
    let lo := memory.read base
    let hi := memory.read ((base + 1) % 0x100)
    let addr := (hi <<< 8) ||| lo
    (cpu, memory.write addr cpu.a)
  | 0x91 => -- STA (Indirect),Y
    let base := memory.read cpu.pc
    let cpu := { cpu with pc := (cpu.pc + 1) % 0x10000 }
    let lo := memory.read base
    let hi := memory.read ((base + 1) % 0x100)
    let addr := (((hi <<< 8) ||| lo) + cpu.y) % 0x10000
    (cpu, memory.write addr cpu.a)
  | 0x86 => -- STX Zero Page
    let addr := memory.read cpu.pc
    let cpu := { cpu with pc := (cpu.pc + 1) % 0x10000 }
    (cpu, memory.write addr cpu.x)
  | 0x96 => -- STX Zero Page,Y
    let addr := (memory.read cpu.pc + cpu.y) % 0x100
    let cpu := { cpu with pc := (cpu.pc + 1) % 0x10000 }
    (cpu, memory.write addr cpu.x)
  | 0x8E => -- STX Absolute
    let lo := memory.read cpu.pc
    let hi := memory.read ((cpu.pc + 1) % 0x10000)
    let cpu := { cpu with pc := (cpu.pc + 2) % 0x10000 }
    let addr := (hi <<< 8) ||| lo
    (cpu, memory.write addr cpu.x)
  | 0x84 => -- STY Zero Page
    let addr := memory.read cpu.pc
    let cpu := { cpu with pc := (cpu.pc + 1) % 0x10000 }
    (cpu, memory.write addr cpu.y)
  | 0x94 => -- STY Zero Page,X
    let addr := (memory.read cpu.pc + cpu.x) % 0x100
    let cpu := { cpu with pc := (cpu.pc + 1) % 0x10000 }
    (cpu, memory.write addr cpu.y)
  | 0x8C => -- STY Absolute
    let lo := memory.read cpu.pc
    let hi := memory.read ((cpu.pc + 1) % 0x10000)
    let cpu := { cpu with pc := (cpu.pc + 2) % 0x10000 }
    let addr := (hi <<< 8) ||| lo
    (cpu, memory.write addr cpu.y)
  -- ------ TRANSFER INSTRUCTIONS ------
  | 0xAA => -- TAX
    let cpu := { cpu with x := cpu.a }
    (update_zero_and_negative_flags cpu cpu.x, memory)
  | 0xA8 => -- TAY
    let cpu := { cpu with y := cpu.a }
    (update_zero_and_negative_flags cpu cpu.y, memory)
  | 0xBA => -- TSX
    let cpu := { cpu with x := cpu.sp }
    (update_zero_and_negative_flags cpu cpu.x, memory)
  | 0x8A => -- TXA
    let cpu := { cpu with a := cpu.x }
    (update_zero_and_negative_flags cpu cpu.a, memory)
  | 0x9A => -- TXS (does NOT update any flags)
    ({ cpu with sp := cpu.x }, memory)
  | 0x98 => -- TYA
    let cpu := { cpu with a := cpu.y }
    (update_zero_and_negative_flags cpu cpu.a, memory)
  -- ----- PHA, PHP, PLA, PLP Instructions -----
  | 0x48 => -- PHA (Push Accumulator)
    push_u8 cpu memory cpu.a
  | 0x08 => -- PHP: push status with Break flag and bit 5 set
    let status := cpu.status ||| 0b00110000
    push_u8 cpu memory status
  | 0x68 => -- PLA (Pull Accumulator)
    let cpu := { cpu with sp := (cpu.sp + 1) % 0x100 }
    let addr := 0x0100 ||| cpu.sp
    let cpu := { cpu with a := memory.read addr }
    (update_zero_and_negative_flags cpu cpu.a, memory)
  | 0x28 => -- PLP: Break flag and bit 5 are ignored when pulled
    let cpu := { cpu with sp := (cpu.sp + 1) % 0x100 }
    let addr := 0x0100 ||| cpu.sp
    let status := memory.read addr
    -- Rust: `(status & !0b00110000) | (self.status & 0b00110000)`
    ({ cpu with status := (status &&& 0b11001111) ||| (cpu.status &&& 0b00110000) },
     memory)
  -- ADC instructions
  | 0x69 => -- ADC Immediate
    let operand := memory.read cpu.pc
    let cpu := { cpu with pc := (cpu.pc + 1) % 0x10000 }
    (adc cpu operand, memory)
  | 0x65 => -- ADC Zero Page
    let addr := memory.read cpu.pc
    let cpu := { cpu with pc := (cpu.pc + 1) % 0x10000 }
    (adc cpu (memory.read addr), memory)
  | 0x75 => -- ADC Zero Page,X
    let addr := (memory.read cpu.pc + cpu.x) % 0x100
    let cpu := { cpu with pc := (cpu.pc + 1) % 0x10000 }
    (adc cpu (memory.read addr), memory)
  | 0x6D => -- ADC Absolute
    let lo := memory.read cpu.pc
    let hi := memory.read ((cpu.pc + 1) % 0x10000)
    let cpu := { cpu with pc := (cpu.pc + 2) % 0x10000 }
    let addr := (hi <<< 8) ||| lo
    (adc cpu (memory.read addr), memory)
  | 0x7D => -- ADC Absolute,X
    let lo := memory.read cpu.pc
    let hi := memory.read ((cpu.pc + 1) % 0x10000)
    let cpu := { cpu with pc := (cpu.pc + 2) % 0x10000 }
    let base := (hi <<< 8) ||| lo
    let addr := (base + cpu.x) % 0x10000
    (adc cpu (memory.read addr), memory)
  | 0x79 => -- ADC Absolute,Y
    let lo := memory.read cpu.pc
    let hi := memory.read ((cpu.pc + 1) % 0x10000)
    let cpu := { cpu with pc := (cpu.pc + 2) % 0x10000 }
    let base := (hi <<< 8) ||| lo
    let addr := (base + cpu.y) % 0x10000
    (adc cpu (memory.read addr), memory)
  | 0x61 => -- ADC (Indirect,X)
    let base := (memory.read cpu.pc + cpu.x) % 0x100
    let cpu := { cpu with pc := (cpu.pc + 1) % 0x10000 }
    let lo := memory.read base
    let hi := memory.read ((base + 1) % 0x100)
    let addr := (hi <<< 8) ||| lo
    (adc cpu (memory.read addr), memory)
  | 0x71 => -- ADC (Indirect),Y
    let base := memory.read cpu.pc
    let cpu := { cpu with pc := (cpu.pc + 1) % 0x10000 }
    let lo := memory.read base
    let hi := memory.read ((base + 1) % 0x100)
    let addr := (((hi <<< 8) ||| lo) + cpu.y) % 0x10000
    (adc cpu (memory.read addr), memory)
  -- SBC instructions
  | 0xE9 => -- SBC Immediate
    let operand := memory.read cpu.pc
    let cpu := { cpu with pc := (cpu.pc + 1) % 0x10000 }
    (sbc cpu operand, memory)
  | 0xE5 => -- SBC Zero Page
    let addr := memory.read cpu.pc
    let cpu := { cpu with pc := (cpu.pc + 1) % 0x10000 }
    (sbc cpu (memory.read addr), memory)
  | 0xF5 => -- SBC Zero Page,X
    let addr := (memory.read cpu.pc + cpu.x) % 0x100
    let cpu := { cpu with pc := (cpu.pc + 1) % 0x10000 }
    (sbc cpu (memory.read addr), memory)
  | 0xED => -- SBC Absolute
    let lo := memory.read cpu.pc
    let hi := memory.read ((cpu.pc + 1) % 0x10000)
    let cpu := { cpu with pc := (cpu.pc + 2) % 0x10000 }
    let addr := (hi <<< 8) ||| lo
    (sbc cpu (memory.read addr), memory)
  | 0xFD => -- SBC Absolute,X
    let lo := memory.read cpu.pc
    let hi := memory.read ((cpu.pc + 1) % 0x10000)
    let cpu := { cpu with pc := (cpu.pc + 2) % 0x10000 }
    let base := (hi <<< 8) ||| lo
    let addr := (base + cpu.x) % 0x10000
    (sbc cpu (memory.read addr), memory)
  | 0xF9 => -- SBC Absolute,Y
    let lo := memory.read cpu.pc
    let hi := memory.read ((cpu.pc + 1) % 0x10000)
    let cpu := { cpu with pc := (cpu.pc + 2) % 0x10000 }
    let base := (hi <<< 8) ||| lo
    let addr := (base + cpu.y) % 0x10000
    (sbc cpu (memory.read addr), memory)
  | 0xE1 => -- SBC (Indirect,X)
    let base := (memory.read cpu.pc + cpu.x) % 0x100
    let cpu := { cpu with pc := (cpu.pc + 1) % 0x10000 }
    let lo := memory.read base
    let hi := memory.read ((base + 1) % 0x100)
    let addr := (hi <<< 8) ||| lo
    (sbc cpu (memory.read addr), memory)
  | 0xF1 => -- SBC (Indirect),Y
    let base := memory.read cpu.pc
    let cpu := { cpu with pc := (cpu.pc + 1) % 0x10000 }
    let lo := memory.read base
    let hi := memory.read ((base + 1) % 0x100)
    let addr := (((hi <<< 8) ||| lo) + cpu.y) % 0x10000
    (sbc cpu (memory.read addr), memory)
  -- INC implementations
  | 0xE6 => -- INC Zero Page
    let addr := memory.read cpu.pc
    let cpu := { cpu with pc := (cpu.pc + 1) % 0x10000 }
    let value := (memory.read addr + 1) % 0x100
    let memory := memory.write addr value
    (update_zero_and_negative_flags cpu value, memory)
  | 0xF6 => -- INC Zero Page,X
    let addr := (memory.read cpu.pc + cpu.x) % 0x100
    let cpu := { cpu with pc := (cpu.pc + 1) % 0x10000 }
    let value := (memory.read addr + 1) % 0x100
    let memory := memory.write addr value
    (update_zero_and_negative_flags cpu value, memory)
  | 0xEE => -- INC Absolute
    let lo := memory.read cpu.pc
    let hi := memory.read ((cpu.pc + 1) % 0x10000)
    let cpu := { cpu with pc := (cpu.pc + 2) % 0x10000 }
    let addr := (hi <<< 8) ||| lo
    let value := (memory.read addr + 1) % 0x100
    let memory := memory.write addr value
    (update_zero_and_negative_flags cpu value, memory)
  | 0xFE => -- INC Absolute,X
    let lo := memory.read cpu.pc
    let hi := memory.read ((cpu.pc + 1) % 0x10000)
    let cpu := { cpu with pc := (cpu.pc + 2) % 0x10000 }
    let base := (hi <<< 8) ||| lo
    let addr := (base + cpu.x) % 0x10000
    let value := (memory.read addr + 1) % 0x100
    let memory := memory.write addr value
    (update_zero_and_negative_flags cpu value, memory)
  | 0xE8 => -- INX
    let cpu := { cpu with x := (cpu.x + 1) % 0x100 }
    (update_zero_and_negative_flags cpu cpu.x, memory)
  | 0xC8 => -- INY
    let cpu := { cpu with y := (cpu.y + 1) % 0x100 }
    (update_zero_and_negative_flags cpu cpu.y, memory)
  -- DEC implementations  (`wrapping_sub(1)` rendered `+ 0xFF` mod 0x100)
  | 0xC6 => -- DEC Zero Page
    let addr := memory.read cpu.pc
    let cpu := { cpu with pc := (cpu.pc + 1) % 0x10000 }
    let value := (memory.read addr + 0xFF) % 0x100
    let memory := memory.write addr value
    (update_zero_and_negative_flags cpu value, memory)
  | 0xD6 => -- DEC Zero Page,X
    let addr := (memory.read cpu.pc + cpu.x) % 0x100
    let cpu := { cpu with pc := (cpu.pc + 1) % 0x10000 }
    let value := (memory.read addr + 0xFF) % 0x100
    let memory := memory.write addr value
    (update_zero_and_negative_flags cpu value, memory)
  | 0xCE => -- DEC Absolute
    let lo := memory.read cpu.pc
    let hi := memory.read ((cpu.pc + 1) % 0x10000)
    let cpu := { cpu with pc := (cpu.pc + 2) % 0x10000 }
    let addr := (hi <<< 8) ||| lo
    let value := (memory.read addr + 0xFF) % 0x100
    let memory := memory.write addr value
    (update_zero_and_negative_flags cpu value, memory)
  | 0xDE => -- DEC Absolute,X
    let lo := memory.read cpu.pc
    let hi := memory.read ((cpu.pc + 1) % 0x10000)
    let cpu := { cpu with pc := (cpu.pc + 2) % 0x10000 }
    let base := (hi <<< 8) ||| lo
    let addr := (base + cpu.x) % 0x10000
    let value := (memory.read addr + 0xFF) % 0x100
    let memory := memory.write addr value
    (update_zero_and_negative_flags cpu value, memory)
  | 0xCA => -- DEX
    let cpu := { cpu with x := (cpu.x + 0xFF) % 0x100 }
    (update_zero_and_negative_flags cpu cpu.x, memory)
  | 0x88 => -- DEY
    let cpu := { cpu with y := (cpu.y + 0xFF) % 0x100 }
    (update_zero_and_negative_flags cpu cpu.y, memory)
  -- AND
  | 0x29 => -- AND Immediate
    let operand := memory.read cpu.pc
    let cpu := { cpu with pc := (cpu.pc + 1) % 0x10000 }
    (and cpu operand, memory)
  | 0x25 => -- AND Zero Page
    let addr := memory.read cpu.pc
    let cpu := { cpu with pc := (cpu.pc + 1) % 0x10000 }
    (and cpu (memory.read addr), memory)
  | 0x35 => -- AND Zero Page,X
    let addr := (memory.read cpu.pc + cpu.x) % 0x100
    let cpu := { cpu with pc := (cpu.pc + 1) % 0x10000 }
    (and cpu (memory.read addr), memory)
  | 0x2D => -- AND Absolute
    let lo := memory.read cpu.pc
    let hi := memory.read ((cpu.pc + 1) % 0x10000)
    let cpu := { cpu with pc := (cpu.pc + 2) % 0x10000 }
    let addr := (hi <<< 8) ||| lo
    (and cpu (memory.read addr), memory)
  | 0x3D => -- AND Absolute,X
    let lo := memory.read cpu.pc
    let hi := memory.read ((cpu.pc + 1) % 0x10000)
    let cpu := { cpu with pc := (cpu.pc + 2) % 0x10000 }
    let base := (hi <<< 8) ||| lo
    let addr := (base + cpu.x) % 0x10000
    (and cpu (memory.read addr), memory)
  | 0x39 => -- AND Absolute,Y
    let lo := memory.read cpu.pc
    let hi := memory.read ((cpu.pc + 1) % 0x10000)
    let cpu := { cpu with pc := (cpu.pc + 2) % 0x10000 }
    let base := (hi <<< 8) ||| lo
    let addr := (base + cpu.y) % 0x10000
    (and cpu (memory.read addr), memory)
  | 0x21 => -- AND (Indirect,X)
    let base := (memory.read cpu.pc + cpu.x) % 0x100
    let cpu := { cpu with pc := (cpu.pc + 1) % 0x10000 }
    let lo := memory.read base
    let hi := memory.read ((base + 1) % 0x100)
    let addr := (hi <<< 8) ||| lo
    (and cpu (memory.read addr), memory)
  | 0x31 => -- AND (Indirect),Y
    let base := memory.read cpu.pc
    let cpu := { cpu with pc := (cpu.pc + 1) % 0x10000 }
    let lo := memory.read base
    let hi := memory.read ((base + 1) % 0x100)
    let addr := (((hi <<< 8) ||| lo) + cpu.y) % 0x10000
    (and cpu (memory.read addr), memory)
  -- ORA
  | 0x09 => -- ORA Immediate
    let operand := memory.read cpu.pc
    let cpu := { cpu with pc := (cpu.pc + 1) % 0x10000 }
    (ora cpu operand, memory)
  | 0x05 => -- ORA Zero Page
    let addr := memory.read cpu.pc
    let cpu := { cpu with pc := (cpu.pc + 1) % 0x10000 }
    (ora cpu (memory.read addr), memory)
  | 0x15 => -- ORA Zero Page,X
    let addr := (memory.read cpu.pc + cpu.x) % 0x100
    let cpu := { cpu with pc := (cpu.pc + 1) % 0x10000 }
    (ora cpu (memory.read addr), memory)
  | 0x0D => -- ORA Absolute
    let lo := memory.read cpu.pc
    let hi := memory.read ((cpu.pc + 1) % 0x10000)
    let cpu := { cpu with pc := (cpu.pc + 2) % 0x10000 }
    let addr := (hi <<< 8) ||| lo
    (ora cpu (memory.read addr), memory)
  | 0x1D => -- ORA Absolute,X
    let lo := memory.read cpu.pc
    let hi := memory.read ((cpu.pc + 1) % 0x10000)
    let cpu := { cpu with pc := (cpu.pc + 2) % 0x10000 }
    let base := (hi <<< 8) ||| lo
    let addr := (base + cpu.x) % 0x10000
    (ora cpu (memory.read addr), memory)
  | 0x19 => -- ORA Absolute,Y
    let lo := memory.read cpu.pc
    let hi := memory.read ((cpu.pc + 1) % 0x10000)
    let cpu := { cpu with pc := (cpu.pc + 2) % 0x10000 }
    let base := (hi <<< 8) ||| lo
    let addr := (base + cpu.y) % 0x10000
    (ora cpu (memory.read addr), memory)
  | 0x01 => -- ORA (Indirect,X)
    let base := (memory.read cpu.pc + cpu.x) % 0x100
    let cpu := { cpu with pc := (cpu.pc + 1) % 0x10000 }
    let lo := memory.read base
    let hi := memory.read ((base + 1) % 0x100)
    let addr := (hi <<< 8) ||| lo
    (ora cpu (memory.read addr), memory)
  | 0x11 => -- ORA (Indirect),Y
    let base := memory.read cpu.pc
    let cpu := { cpu with pc := (cpu.pc + 1) % 0x10000 }
    let lo := memory.read base
    let hi := memory.read ((base + 1) % 0x100)
    let addr := (((hi <<< 8) ||| lo) + cpu.y) % 0x10000
    (ora cpu (memory.read addr), memory)
  -- EOR
  | 0x49 => -- EOR Immediate
    let operand := memory.read cpu.pc
    let cpu := { cpu with pc := (cpu.pc + 1) % 0x10000 }
    (eor cpu operand, memory)
  | 0x45 => -- EOR Zero Page
    let addr := memory.read cpu.pc
    let cpu := { cpu with pc := (cpu.pc + 1) % 0x10000 }
    (eor cpu (memory.read addr), memory)
  | 0x55 => -- EOR Zero Page,X
    let addr := (memory.read cpu.pc + cpu.x) % 0x100
    let cpu := { cpu with pc := (cpu.pc + 1) % 0x10000 }
    (eor cpu (memory.read addr), memory)
  | 0x4D => -- EOR Absolute
    let lo := memory.read cpu.pc
    let hi := memory.read ((cpu.pc + 1) % 0x10000)
    let cpu := { cpu with pc := (cpu.pc + 2) % 0x10000 }
    let addr := (hi <<< 8) ||| lo
    (eor cpu (memory.read addr), memory)
  | 0x5D => -- EOR Absolute,X
    let lo := memory.read cpu.pc
    let hi := memory.read ((cpu.pc + 1) % 0x10000)
    let cpu := { cpu with pc := (cpu.pc + 2) % 0x10000 }
    let base := (hi <<< 8) ||| lo
    let addr := (base + cpu.x) % 0x10000
    (eor cpu (memory.read addr), memory)
  | 0x59 => -- EOR Absolute,Y
    let lo := memory.read cpu.pc
    let hi := memory.read ((cpu.pc + 1) % 0x10000)
    let cpu := { cpu with pc := (cpu.pc + 2) % 0x10000 }
    let base := (hi <<< 8) ||| lo
    let addr := (base + cpu.y) % 0x10000
    (eor cpu (memory.read addr), memory)
  | 0x41 => -- EOR (Indirect,X)
    let base := (memory.read cpu.pc + cpu.x) % 0x100
    let cpu := { cpu with pc := (cpu.pc + 1) % 0x10000 }
    let lo := memory.read base
    let hi := memory.read ((base + 1) % 0x100)
    let addr := (hi <<< 8) ||| lo
    (eor cpu (memory.read addr), memory)
  | 0x51 => -- EOR (Indirect),Y
    let base := memory.read cpu.pc
    let cpu := { cpu with pc := (cpu.pc + 1) % 0x10000 }
    let lo := memory.read base
    let hi := memory.read ((base + 1) % 0x100)
    let addr := (((hi <<< 8) ||| lo) + cpu.y) % 0x10000
    (eor cpu (memory.read addr), memory)
  -- BIT
  | 0x24 => -- BIT Zero Page
    let addr := memory.read cpu.pc
    let cpu := { cpu with pc := (cpu.pc + 1) % 0x10000 }
    (bit cpu (memory.read addr), memory)
  | 0x2C => -- BIT Absolute
    let lo := memory.read cpu.pc
    let hi := memory.read ((cpu.pc + 1) % 0x10000)
    let cpu := { cpu with pc := (cpu.pc + 2) % 0x10000 }
    let addr := (hi <<< 8) ||| lo
    (bit cpu (memory.read addr), memory)
  -- ASL
  | 0x0A => -- ASL Accumulator
    let (cpu, result) := asl cpu cpu.a
    ({ cpu with a := result }, memory)
  | 0x06 => -- ASL Zero Page
    let addr := memory.read cpu.pc
    let cpu := { cpu with pc := (cpu.pc + 1) % 0x10000 }
    let (cpu, result) := asl cpu (memory.read addr)
    (cpu, memory.write addr result)
  | 0x16 => -- ASL Zero Page,X
    let addr := (memory.read cpu.pc + cpu.x) % 0x100
    let cpu := { cpu with pc := (cpu.pc + 1) % 0x10000 }
    let (cpu, result) := asl cpu (memory.read addr)
    (cpu, memory.write addr result)
  | 0x0E => -- ASL Absolute
    let lo := memory.read cpu.pc
    let hi := memory.read ((cpu.pc + 1) % 0x10000)
    let cpu := { cpu with pc := (cpu.pc + 2) % 0x10000 }
    let addr := (hi <<< 8) ||| lo
    let (cpu, result) := asl cpu (memory.read addr)
    (cpu, memory.write addr result)
  | 0x1E => -- ASL Absolute,X
    let lo := memory.read cpu.pc
    let hi := memory.read ((cpu.pc + 1) % 0x10000)
    let cpu := { cpu with pc := (cpu.pc + 2) % 0x10000 }
    let base := (hi <<< 8) ||| lo
    let addr := (base + cpu.x) % 0x10000
    let (cpu, result) := asl cpu (memory.read addr)
    (cpu, memory.write addr result)
  -- LSR
  | 0x4A => -- LSR Accumulator
    let (cpu, result) := lsr cpu cpu.a
    ({ cpu with a := result }, memory)
  | 0x46 => -- LSR Zero Page
    let addr := memory.read cpu.pc
    let cpu := { cpu with pc := (cpu.pc + 1) % 0x10000 }
    let (cpu, result) := lsr cpu (memory.read addr)
    (cpu, memory.write addr result)
  | 0x56 => -- LSR Zero Page,X
    let addr := (memory.read cpu.pc + cpu.x) % 0x100
    let cpu := { cpu with pc := (cpu.pc + 1) % 0x10000 }
    let (cpu, result) := lsr cpu (memory.read addr)
    (cpu, memory.write addr result)
  | 0x4E => -- LSR Absolute
    let lo := memory.read cpu.pc
    let hi := memory.read ((cpu.pc + 1) % 0x10000)
    let cpu := { cpu with pc := (cpu.pc + 2) % 0x10000 }
    let addr := (hi <<< 8) ||| lo
    let (cpu, result) := lsr cpu (memory.read addr)
    (cpu, memory.write addr result)
  | 0x5E => -- LSR Absolute,X
    let lo := memory.read cpu.pc
    let hi := memory.read ((cpu.pc + 1) % 0x10000)
    let cpu := { cpu with pc := (cpu.pc + 2) % 0x10000 }
    let base := (hi <<< 8) ||| lo
    let addr := (base + cpu.x) % 0x10000
    let (cpu, result) := lsr cpu (memory.read addr)
    (cpu, memory.write addr result)
  -- ROL
  | 0x2A => -- ROL Accumulator
    let (cpu, result) := rol cpu cpu.a
    ({ cpu with a := result }, memory)
  | 0x26 => -- ROL Zero Page
    let addr := memory.read cpu.pc
    let cpu := { cpu with pc := (cpu.pc + 1) % 0x10000 }
    let (cpu, result) := rol cpu (memory.read addr)
    (cpu, memory.write addr result)
  | 0x36 => -- ROL Zero Page,X
    let addr := (memory.read cpu.pc + cpu.x) % 0x100
    let cpu := { cpu with pc := (cpu.pc + 1) % 0x10000 }
    let (cpu, result) := rol cpu (memory.read addr)
    (cpu, memory.write addr result)
  | 0x2E => -- ROL Absolute
    let lo := memory.read cpu.pc
    let hi := memory.read ((cpu.pc + 1) % 0x10000)
    let cpu := { cpu with pc := (cpu.pc + 2) % 0x10000 }
    let addr := (hi <<< 8) ||| lo
    let (cpu, result) := rol cpu (memory.read addr)
    (cpu, memory.write addr result)
  | 0x3E => -- ROL Absolute,X
    let lo := memory.read cpu.pc
    let hi := memory.read ((cpu.pc + 1) % 0x10000)
    let cpu := { cpu with pc := (cpu.pc + 2) % 0x10000 }
    let base := (hi <<< 8) ||| lo
    let addr := (base + cpu.x) % 0x10000
    let (cpu, result) := rol cpu (memory.read addr)
    (cpu, memory.write addr result)
  -- ROR
  | 0x6A => -- ROR Accumulator
    let (cpu, result) := ror cpu cpu.a
    ({ cpu with a := result }, memory)
  | 0x66 => -- ROR Zero Page
    let addr := memory.read cpu.pc
    let cpu := { cpu with pc := (cpu.pc + 1) % 0x10000 }
    let (cpu, result) := ror cpu (memory.read addr)
    (cpu, memory.write addr result)
  | 0x76 => -- ROR Zero Page,X
    let addr := (memory.read cpu.pc + cpu.x) % 0x100
    let cpu := { cpu with pc := (cpu.pc + 1) % 0x10000 }
    let (cpu, result) := ror cpu (memory.read addr)
    (cpu, memory.write addr result)
  | 0x6E => -- ROR Absolute
    let lo := memory.read cpu.pc
    let hi := memory.read ((cpu.pc + 1) % 0x10000)
    let cpu := { cpu with pc := (cpu.pc + 2) % 0x10000 }
    let addr := (hi <<< 8) ||| lo
    let (cpu, result) := ror cpu (memory.read addr)
    (cpu, memory.write addr result)
  | 0x7E => -- ROR Absolute,X
    let lo := memory.read cpu.pc
    let hi := memory.read ((cpu.pc + 1) % 0x10000)
    let cpu := { cpu with pc := (cpu.pc + 2) % 0x10000 }
    let base := (hi <<< 8) ||| lo
    let addr := (base + cpu.x) % 0x10000
    let (cpu, result) := ror cpu (memory.read addr)
    (cpu, memory.write addr result)
  -- CMP
  | 0xC9 => -- CMP Immediate
    let operand := memory.read cpu.pc
    let cpu := { cpu with pc := (cpu.pc + 1) % 0x10000 }
    (cmp cpu operand, memory)
  | 0xC5 => -- CMP Zero Page
    let addr := memory.read cpu.pc
    let cpu := { cpu with pc := (cpu.pc + 1) % 0x10000 }
    (cmp cpu (memory.read addr), memory)
  | 0xD5 => -- CMP Zero Page,X
    let addr := (memory.read cpu.pc + cpu.x) % 0x100
    let cpu := { cpu with pc := (cpu.pc + 1) % 0x10000 }
    (cmp cpu (memory.read addr), memory)
  | 0xCD => -- CMP Absolute
    let lo := memory.read cpu.pc
    let hi := memory.read ((cpu.pc + 1) % 0x10000)
    let cpu := { cpu with pc := (cpu.pc + 2) % 0x10000 }
    let addr := (hi <<< 8) ||| lo
    (cmp cpu (memory.read addr), memory)
  | 0xDD => -- CMP Absolute,X
    let lo := memory.read cpu.pc
    let hi := memory.read ((cpu.pc + 1) % 0x10000)
    let cpu := { cpu with pc := (cpu.pc + 2) % 0x10000 }
    let base := (hi <<< 8) ||| lo
    let addr := (base + cpu.x) % 0x10000
    (cmp cpu (memory.read addr), memory)
  | 0xD9 => -- CMP Absolute,Y
    let lo := memory.read cpu.pc
    let hi := memory.read ((cpu.pc + 1) % 0x10000)
    let cpu := { cpu with pc := (cpu.pc + 2) % 0x10000 }
    let base := (hi <<< 8) ||| lo
    let addr := (base + cpu.y) % 0x10000
    (cmp cpu (memory.read addr), memory)
  | 0xC1 => -- CMP (Indirect,X)
    let base := (memory.read cpu.pc + cpu.x) % 0x100
    let cpu := { cpu with pc := (cpu.pc + 1) % 0x10000 }
    let lo := memory.read base
    let hi := memory.read ((base + 1) % 0x100)
    let addr := (hi <<< 8) ||| lo
    (cmp cpu (memory.read addr), memory)
  | 0xD1 => -- CMP (Indirect),Y
    let base := memory.read cpu.pc
    let cpu := { cpu with pc := (cpu.pc + 1) % 0x10000 }
    let lo := memory.read base
    let hi := memory.read ((base + 1) % 0x100)
    let addr := (((hi <<< 8) ||| lo) + cpu.y) % 0x10000
    (cmp cpu (memory.read addr), memory)
  -- CPX instructions
  | 0xE0 => -- CPX Immediate
    let operand := memory.read cpu.pc
    let cpu := { cpu with pc := (cpu.pc + 1) % 0x10000 }
    (cpx cpu operand, memory)
  | 0xE4 => -- CPX Zero Page
    let addr := memory.read cpu.pc
    let cpu := { cpu with pc := (cpu.pc + 1) % 0x10000 }
    (cpx cpu (memory.read addr), memory)
  | 0xEC => -- CPX Absolute
    let lo := memory.read cpu.pc
    let hi := memory.read ((cpu.pc + 1) % 0x10000)
    let cpu := { cpu with pc := (cpu.pc + 2) % 0x10000 }
    let addr := (hi <<< 8) ||| lo
    (cpx cpu (memory.read addr), memory)
  -- CPY instructions
  | 0xC0 => -- CPY Immediate
    let operand := memory.read cpu.pc
    let cpu := { cpu with pc := (cpu.pc + 1) % 0x10000 }
    (cpy cpu operand, memory)
  | 0xC4 => -- CPY Zero Page
    let addr := memory.read cpu.pc
    let cpu := { cpu with pc := (cpu.pc + 1) % 0x10000 }
    (cpy cpu (memory.read addr), memory)
  | 0xCC => -- CPY Absolute
    let lo := memory.read cpu.pc
    let hi := memory.read ((cpu.pc + 1) % 0x10000)
    let cpu := { cpu with pc := (cpu.pc + 2) % 0x10000 }
    let addr := (hi <<< 8) ||| lo
    (cpy cpu (memory.read addr), memory)
  -- JMP implementation
  | 0x4C => -- JMP Absolute (don't increment PC as we're jumping)
    let lo := memory.read cpu.pc
    let hi := memory.read ((cpu.pc + 1) % 0x10000)
    ({ cpu with pc := (hi <<< 8) ||| lo }, memory)
  | 0x6C => -- JMP Indirect, with the 6502 page-boundary bug
    let addr_lo := memory.read cpu.pc
    let addr_hi := memory.read ((cpu.pc + 1) % 0x10000)
    let addr := (addr_hi <<< 8) ||| addr_lo
    let lo := memory.read addr
    let hi := if addr &&& 0xFF = 0xFF then
        -- Page boundary bug - high byte is fetched from same page
        memory.read (addr &&& 0xFF00)
      else
        memory.read ((addr + 1) % 0x10000)
    ({ cpu with pc := (hi <<< 8) ||| lo }, memory)
  | 0x20 => -- JSR Absolute
    let lo := memory.read cpu.pc
    let hi := memory.read ((cpu.pc + 1) % 0x10000)
    let target_addr := (hi <<< 8) ||| lo
    -- Push return address (PC + 1): the address of the instruction's last byte
    let return_addr := (cpu.pc + 1) % 0x10000
    let (cpu, memory) := push_u16 cpu memory return_addr
    ({ cpu with pc := target_addr }, memory)
  | 0x60 => -- RTS (Return from Subroutine)
    let (cpu, return_addr) := pull_u16 cpu memory
    ({ cpu with pc := (return_addr + 1) % 0x10000 }, memory)
  -- ALL BRANCH INSTRUCTIONS
  | 0xF0 => -- BEQ Relative
    let offset := memory.read cpu.pc
    let cpu := { cpu with pc := (cpu.pc + 1) % 0x10000 }
    if cpu.status &&& ZERO_FLAG ≠ 0 then
      ({ cpu with pc := (cpu.pc + sign_extend offset) % 0x10000 }, memory)
    else (cpu, memory)
  | 0xD0 => -- BNE Relative
    let offset := memory.read cpu.pc
    let cpu := { cpu with pc := (cpu.pc + 1) % 0x10000 }
    if cpu.status &&& ZERO_FLAG = 0 then
      ({ cpu with pc := (cpu.pc + sign_extend offset) % 0x10000 }, memory)
    else (cpu, memory)
  | 0xB0 => -- BCS Relative
    let offset := memory.read cpu.pc
    let cpu := { cpu with pc := (cpu.pc + 1) % 0x10000 }
    if cpu.status &&& CARRY_FLAG ≠ 0 then
      ({ cpu with pc := (cpu.pc + sign_extend offset) % 0x10000 }, memory)
    else (cpu, memory)
  | 0x90 => -- BCC Relative
    let offset := memory.read cpu.pc
    let cpu := { cpu with pc := (cpu.pc + 1) % 0x10000 }
    if cpu.status &&& CARRY_FLAG = 0 then
      ({ cpu with pc := (cpu.pc + sign_extend offset) % 0x10000 }, memory)
    else (cpu, memory)
  | 0x30 => -- BMI Relative
    let offset := memory.read cpu.pc
    let cpu := { cpu with pc := (cpu.pc + 1) % 0x10000 }
    if cpu.status &&& NEGATIVE_FLAG ≠ 0 then
      ({ cpu with pc := (cpu.pc + sign_extend offset) % 0x10000 }, memory)
    else (cpu, memory)
  | 0x10 => -- BPL Relative
    let offset := memory.read cpu.pc
    let cpu := { cpu with pc := (cpu.pc + 1) % 0x10000 }
    if cpu.status &&& NEGATIVE_FLAG = 0 then
      ({ cpu with pc := (cpu.pc + sign_extend offset) % 0x10000 }, memory)
    else (cpu, memory)
  | 0x70 => -- BVS Relative
    let offset := memory.read cpu.pc
    let cpu := { cpu with pc := (cpu.pc + 1) % 0x10000 }
    if cpu.status &&& OVERFLOW_FLAG ≠ 0 then
      ({ cpu with pc := (cpu.pc + sign_extend offset) % 0x10000 }, memory)
    else (cpu, memory)
  | 0x50 => -- BVC Relative
    let offset := memory.read cpu.pc
    let cpu := { cpu with pc := (cpu.pc + 1) % 0x10000 }
    if cpu.status &&& OVERFLOW_FLAG = 0 then
      ({ cpu with pc := (cpu.pc + sign_extend offset) % 0x10000 }, memory)
    else (cpu, memory)
  -- (the second `0x00` BRK arm, cpu.rs lines 1665-1672, is unreachable)
  | 0x40 => -- RTI (Return from Interrupt)
    let cpu := pull_status cpu memory
    let (cpu, addr) := pull_u16 cpu memory
    ({ cpu with pc := addr }, memory)
  | 0xEA => -- NOP
    (cpu, memory)
  -- Flag manipulation instructions
  | 0x18 => ({ cpu with status := cpu.status &&& 0b11111110 }, memory) -- CLC
  | 0x38 => ({ cpu with status := cpu.status ||| 0b00000001 }, memory) -- SEC
  | 0xD8 => ({ cpu with status := cpu.status &&& 0b11110111 }, memory) -- CLD
  | 0xF8 => ({ cpu with status := cpu.status ||| 0b00001000 }, memory) -- SED
  | 0x58 => ({ cpu with status := cpu.status &&& 0b11111011 }, memory) -- CLI
  | 0x78 => ({ cpu with status := cpu.status ||| 0b00000100 }, memory) -- SEI
  | 0xB8 => ({ cpu with status := cpu.status &&& 0b10111111 }, memory) -- CLV
  -- Additional NOP variants (the Rust `self.pc += 1` / `+= 2` is
  -- non-wrapping; rendered with the same 16-bit wrap as elsewhere)
  | 0x1A => (cpu, memory) -- NOP
  | 0x3A => (cpu, memory) -- NOP
  | 0x5A => (cpu, memory) -- NOP
  | 0x7A => (cpu, memory) -- NOP
  | 0xDA => (cpu, memory) -- NOP
  | 0xFA => (cpu, memory) -- NOP
  | 0x80 => ({ cpu with pc := (cpu.pc + 1) % 0x10000 }, memory) -- NOP (immediate)
  | 0x82 => ({ cpu with pc := (cpu.pc + 1) % 0x10000 }, memory) -- NOP (immediate)
  | 0x89 => ({ cpu with pc := (cpu.pc + 1) % 0x10000 }, memory) -- NOP (immediate)
  | 0xC2 => ({ cpu with pc := (cpu.pc + 1) % 0x10000 }, memory) -- NOP (immediate)
  | 0xE2 => ({ cpu with pc := (cpu.pc + 1) % 0x10000 }, memory) -- NOP (immediate)
  | 0x04 => ({ cpu with pc := (cpu.pc + 1) % 0x10000 }, memory) -- NOP (zeropage)
  | 0x44 => ({ cpu with pc := (cpu.pc + 1) % 0x10000 }, memory) -- NOP (zeropage)
  | 0x64 => ({ cpu with pc := (cpu.pc + 1) % 0x10000 }, memory) -- NOP (zeropage)
  | 0x14 => ({ cpu with pc := (cpu.pc + 1) % 0x10000 }, memory) -- NOP (zeropage,X)
  | 0x34 => ({ cpu with pc := (cpu.pc + 1) % 0x10000 }, memory) -- NOP (zeropage,X)
  | 0x54 => ({ cpu with pc := (cpu.pc + 1) % 0x10000 }, memory) -- NOP (zeropage,X)
  | 0x74 => ({ cpu with pc := (cpu.pc + 1) % 0x10000 }, memory) -- NOP (zeropage,X)
  | 0xD4 => ({ cpu with pc := (cpu.pc + 1) % 0x10000 }, memory) -- NOP (zeropage,X)
  | 0xF4 => ({ cpu with pc := (cpu.pc + 1) % 0x10000 }, memory) -- NOP (zeropage,X)
  | 0x0C => ({ cpu with pc := (cpu.pc + 2) % 0x10000 }, memory) -- NOP (absolute)
  | 0x1C => ({ cpu with pc := (cpu.pc + 2) % 0x10000 }, memory) -- NOP (absolute,X)
  | 0x3C => ({ cpu with pc := (cpu.pc + 2) % 0x10000 }, memory) -- NOP (absolute,X)
  | 0x5C => ({ cpu with pc := (cpu.pc + 2) % 0x10000 }, memory) -- NOP (absolute,X)
  | 0x7C => ({ cpu with pc := (cpu.pc + 2) % 0x10000 }, memory) -- NOP (absolute,X)
  | 0xDC => ({ cpu with pc := (cpu.pc + 2) % 0x10000 }, memory) -- NOP (absolute,X)
  | 0xFC => ({ cpu with pc := (cpu.pc + 2) % 0x10000 }, memory) -- NOP (absolute,X)
  | _ =>
    -- Unimplemented opcode: the Rust code appends the opcode byte to
    -- `unimplemented_opcodes.log` and prints a line; core state unchanged.
    (cpu, memory)

/-- Embedding of `Cpu::exec_next_instr` (cpu.rs lines 355-1757): fetch the
opcode at PC, advance PC with `wrapping_add(1)`, dispatch. -/
def exec_next_instr (cpu : Cpu) (memory : Memory) : Cpu × Memory :=
  let opcode := memory.read cpu.pc
  let cpu := { cpu with pc := (cpu.pc + 1) % 0x10000 }
  execOpcode opcode cpu memory

/-- The 178 opcode bytes that have a dedicated arm in the `match` of
`exec_next_instr`; every other byte reaches the default (logging) arm. -/
def implementedOpcodes : List Nat :=
  [0xA9, 0xA5, 0xB5, 0xAD, 0xBD, 0xB9, 0xA1, 0xB1,
   0xA2, 0xA6, 0xB6, 0xAE, 0xBE,
   0xA0, 0xA4, 0xB4, 0xAC, 0xBC,
   0x00,
   0x85, 0x95, 0x8D, 0x9D, 0x99, 0x81, 0x91,
   0x86, 0x96, 0x8E,
   0x84, 0x94, 0x8C,
   0xAA, 0xA8, 0xBA, 0x8A, 0x9A, 0x98,
   0x48, 0x08, 0x68, 0x28,
   0x69, 0x65, 0x75, 0x6D, 0x7D, 0x79, 0x61, 0x71,
   0xE9, 0xE5, 0xF5, 0xED, 0xFD, 0xF9, 0xE1, 0xF1,
   0xE6, 0xF6, 0xEE, 0xFE, 0xE8, 0xC8,
   0xC6, 0xD6, 0xCE, 0xDE, 0xCA, 0x88,
   0x29, 0x25, 0x35, 0x2D, 0x3D, 0x39, 0x21, 0x31,
   0x09, 0x05, 0x15, 0x0D, 0x1D, 0x19, 0x01, 0x11,
   0x49, 0x45, 0x55, 0x4D, 0x5D, 0x59, 0x41, 0x51,
   0x24, 0x2C,
   0x0A, 0x06, 0x16, 0x0E, 0x1E,
   0x4A, 0x46, 0x56, 0x4E, 0x5E,
   0x2A, 0x26, 0x36, 0x2E, 0x3E,
   0x6A, 0x66, 0x76, 0x6E, 0x7E,
   0xC9, 0xC5, 0xD5, 0xCD, 0xDD, 0xD9, 0xC1, 0xD1,
   0xE0, 0xE4, 0xEC,
   0xC0, 0xC4, 0xCC,
   0x4C, 0x6C, 0x20, 0x60,
   0xF0, 0xD0, 0xB0, 0x90, 0x30, 0x10, 0x70, 0x50,
   0x40, 0xEA,
   0x18, 0x38, 0xD8, 0xF8, 0x58, 0x78, 0xB8,
   0x1A, 0x3A, 0x5A, 0x7A, 0xDA, 0xFA,
   0x80, 0x82, 0x89, 0xC2, 0xE2,
   0x04, 0x44, 0x64,
   0x14, 0x34, 0x54, 0x74, 0xD4, 0xF4,
   0x0C, 0x1C, 0x3C, 0x5C, 0x7C, 0xFC, 0xDC]

/-! ### General helper lemmas -/

/-- `(hi << 8) | lo` is the little-endian word value when `lo` is a byte. -/
theorem shl8_or_eq (hi lo : Nat) (hlo : lo < 0x100) :
    (hi <<< 8) ||| lo = 0x100 * hi + lo := by
  have h : (2 ^ 8) * hi + lo = (2 ^ 8) * hi ||| lo :=
    Nat.mul_add_lt_is_or (by simpa using hlo) hi
  rw [Nat.shiftLeft_eq, Nat.mul_comm hi (2 ^ 8), ← h]
  norm_num

/-- The addresses of the read/write arms that back a store (everything the
spec calls writable except the PRG-ROM region — and except 0x4016-0x4017,
which no arm of `Memory::read`/`Memory::write` covers). -/
def WritableAddr (a : Nat) : Prop :=
  a ≤ 0x1FFF ∨ (0x2000 ≤ a ∧ a ≤ 0x3FFF) ∨ (0x4000 ≤ a ∧ a ≤ 0x4013) ∨
  a = 0x4014 ∨ a = 0x4015 ∨ (0x6000 ≤ a ∧ a ≤ 0x7FFF)

/-! ### Claim C4 -/

/-- C4 counterexample: the claim includes the controller ports 0x4016-0x4017
among the writable (read-back) addresses, but neither `Memory::read` nor
`Memory::write` has an arm for them — the write is discarded and the read
returns the unmapped fallback 0, not the written value 1. -/
theorem c4_counterexample_4016 :
    ((Memory.new []).write 0x4016 1).read 0x4016 = 0 ∧ (0 : Nat) ≠ 1 := by
  constructor
  · rfl
  · decide

/-- C4 (amended): write-then-read returns the written byte on every mapped
writable address (internal RAM, PPU window, APU/IO 0x4000-0x4013 and 0x4015,
OAM-DMA 0x4014, cartridge RAM) — with 0x4016-0x4017 excluded, since those
fall through to the unmapped arms — and a write to PRG-ROM 0x8000-0xFFFF is
a no-op, leaving every subsequent read unchanged. -/
theorem c4_write_read (m : Memory) (a v : Nat) :
    (WritableAddr a → v < 0x100 → (m.write a v).read a = v) ∧
    (0x8000 ≤ a → a ≤ 0xFFFF → m.write a v = m) := by
  constructor
  · intro ha _
    unfold WritableAddr at ha
    unfold Memory.write Memory.read
    split_ifs <;> first | omega | simp
  · intro h1 h2
    unfold Memory.write
    split_ifs <;> first | rfl | omega

/-- Witness for `c4_write_read` at a RAM address and a ROM address. -/
theorem c4_write_read_witness :
    ((Memory.new []).write 0x0005 0x42).read 0x0005 = 0x42 ∧
    (Memory.new []).write 0x9000 7 = Memory.new [] :=
  ⟨(c4_write_read (Memory.new []) 0x0005 0x42).1
      (by unfold WritableAddr; omega) (by norm_num),
   (c4_write_read (Memory.new []) 0x9000 7).2 (by norm_num) (by norm_num)⟩

/-! ### Claim C5 -/

/-- On a memory with a non-empty PRG-ROM vector, the fallible read never
fails and agrees with the total `Memory.read`. -/
theorem readChecked_eq_read (m : Memory) (addr : Nat) (h : m.prg_rom ≠ []) :
    m.readChecked addr = some (m.read addr) := by
  have hl : m.prg_rom.length ≠ 0 := fun hh => h (List.length_eq_zero.mp hh)
  have hpos : 0 < m.prg_rom.length := Nat.pos_of_ne_zero hl
  unfold Memory.readChecked Memory.read
  split_ifs with c1 c2 c3 c4 c5 c6 c7 <;>
    first
      | rfl
      | exact absurd c7 hl
      | rw [List.getD_eq_getElem _ _ (Nat.mod_lt _ hpos)]
        simp [List.get_eq_getElem]

/-- C5 counterexample: on a `Memory` built by `Memory::new` from an empty
PRG-ROM vector, reading a PRG address fails — the Rust code computes
`(addr - 0x8000) % 0` (panic), modelled as `none`. -/
theorem c5_counterexample_empty_rom :
    (Memory.new []).readChecked 0x8000 = none := by
  rfl

/-- C5 (amended): for every memory whose PRG-ROM vector is non-empty, every
read succeeds (`readChecked` returns `some` of the total `read`, which
returns 0 on unmapped addresses and for which unmapped writes are
discarded), and the PRG index `(addr - 0x8000) % len` is in bounds. -/
theorem c5_read_total (m : Memory) (addr : Nat) (h : m.prg_rom ≠ []) :
    m.readChecked addr = some (m.read addr) ∧
    (addr - 0x8000) % m.prg_rom.length < m.prg_rom.length := by
  have hl : m.prg_rom.length ≠ 0 := fun hh => h (List.length_eq_zero.mp hh)
  exact ⟨readChecked_eq_read m addr h, Nat.mod_lt _ (Nat.pos_of_ne_zero hl)⟩

/-- Witness for `c5_read_total` on a one-byte ROM. -/
theorem c5_read_total_witness :
    (Memory.new [0x60]).readChecked 0x9000 =
      some ((Memory.new [0x60]).read 0x9000) ∧
    (0x9000 - 0x8000) % (Memory.new [0x60]).prg_rom.length <
      (Memory.new [0x60]).prg_rom.length :=
  c5_read_total (Memory.new [0x60]) 0x9000 (by simp [Memory.new])

/-! ### Claim C10 -/

/-- C10 counterexample: the claim quantifies over every memory, but the
reset-vector fetch `memory.read_u16(0xFFFC)` always reads the PRG region,
so on a memory built from an empty PRG-ROM vector `Cpu::reset` panics
(`(0xFFFC - 0x8000) % 0`, mem.rs line 47) instead of setting PC — the same
failure C5 corrects for `Memory::read`. -/
theorem c10_counterexample_empty_rom :
    Cpu.new.resetChecked (Memory.new []) = none := by
  rfl

/-- C10 (amended): on every memory whose PRG-ROM vector is non-empty,
`Cpu::reset` returns (the fallible model agrees with the total one), loads
PC with the little-endian word at 0xFFFC/0xFFFD, and leaves SP, A, X, Y and
the status word unchanged.  `reset` takes the memory by shared reference
(embedded as a function returning only a `Cpu`), so it cannot write memory;
its `println!` is diagnostics only.  On an empty PRG-ROM vector the
reset-vector fetch panics (see `c10_counterexample_empty_rom`). -/
theorem c10_reset (cpu : Cpu) (m : Memory) (hm : m.Wf) (hrom : m.prg_rom ≠ []) :
    cpu.resetChecked m = some (cpu.reset m) ∧
    (cpu.reset m).pc = 0x100 * m.read 0xFFFD + m.read 0xFFFC ∧
    (cpu.reset m).sp = cpu.sp ∧ (cpu.reset m).a = cpu.a ∧
    (cpu.reset m).x = cpu.x ∧ (cpu.reset m).y = cpu.y ∧
    (cpu.reset m).status = cpu.status := by
  refine ⟨?_, ?_, rfl, rfl, rfl, rfl, rfl⟩
  · unfold Cpu.resetChecked Memory.read_u16Checked
    rw [readChecked_eq_read m 0xFFFC hrom,
        readChecked_eq_read m ((0xFFFC + 1) % 0x10000) hrom]
    rfl
  · show m.read_u16 0xFFFC = _
    unfold Memory.read_u16
    rw [show (0xFFFC + 1) % 0x10000 = 0xFFFD by norm_num]
    exact shl8_or_eq _ _ (m.read_lt hm 0xFFFC)

/-- Witness for `c10_reset` on a two-byte ROM (reset vector 0x1234). -/
theorem c10_reset_witness :
    Cpu.new.resetChecked (Memory.new [0x34, 0x12]) =
      some (Cpu.new.reset (Memory.new [0x34, 0x12])) ∧
    (Cpu.new.reset (Memory.new [0x34, 0x12])).pc =
      0x100 * (Memory.new [0x34, 0x12]).read 0xFFFD +
        (Memory.new [0x34, 0x12]).read 0xFFFC ∧
    (Cpu.new.reset (Memory.new [0x34, 0x12])).sp = Cpu.new.sp ∧
    (Cpu.new.reset (Memory.new [0x34, 0x12])).a = Cpu.new.a ∧
    (Cpu.new.reset (Memory.new [0x34, 0x12])).x = Cpu.new.x ∧
    (Cpu.new.reset (Memory.new [0x34, 0x12])).y = Cpu.new.y ∧
    (Cpu.new.reset (Memory.new [0x34, 0x12])).status = Cpu.new.status :=
  c10_reset Cpu.new (Memory.new [0x34, 0x12])
    ⟨fun _ _ => by simp [Memory.new], by decide,
     fun _ _ => by simp [Memory.new], fun _ _ => by simp [Memory.new],
     fun _ _ => by simp [Memory.new], by simp [Memory.new]⟩
    (by simp [Memory.new])

/-- `x & 0xFF` extracts the low byte. -/
theorem and_FF_eq_mod (x : Nat) : x &&& 0xFF = x % 0x100 := by
  have h := Nat.and_pow_two_sub_one_eq_mod x 8
  norm_num at h
  exact h

/-- A `Memory` built by `Memory::new` from a byte list is well-formed. -/
theorem Memory.wf_new (l : List Nat) (hl : ∀ b ∈ l, b < 0x100) :
    (Memory.new l).Wf := by
  refine ⟨fun i _ => ?_, hl, fun i _ => ?_, fun i _ => ?_, fun i _ => ?_, ?_⟩ <;>
    norm_num [Memory.new]

/-- `Memory::write` of a byte preserves well-formedness. -/
theorem Memory.wf_write (m : Memory) (a v : Nat) (hm : m.Wf) (hv : v < 0x100) :
    (m.write a v).Wf := by
  obtain ⟨h1, h2, h3, h4, h5, h6⟩ := hm
  unfold Memory.write
  split_ifs <;>
    refine ⟨?_, ?_, ?_, ?_, ?_, ?_⟩ <;>
      first
        | exact h1 | exact h2 | exact h3 | exact h4 | exact h5 | exact h6
        | exact hv
        | (intro i hi; dsimp only; split_ifs <;>
            first | exact hv | exact h1 i hi | exact h3 i hi
                  | exact h4 i hi | exact h5 i hi)

/-! ### Claim C9 -/

/-- The 78 opcode bytes with no dedicated arm: the complement of
`implementedOpcodes` within 0x00-0xFF.  These all reach the default arm. -/
def unimplementedOpcodes : List Nat :=
  [0x02, 0x03, 0x07, 0x0B, 0x0F, 0x12, 0x13, 0x17, 0x1B, 0x1F, 0x22, 0x23,
   0x27, 0x2B, 0x2F, 0x32, 0x33, 0x37, 0x3B, 0x3F, 0x42, 0x43, 0x47, 0x4B,
   0x4F, 0x52, 0x53, 0x57, 0x5B, 0x5F, 0x62, 0x63, 0x67, 0x6B, 0x6F, 0x72,
   0x73, 0x77, 0x7B, 0x7F, 0x83, 0x87, 0x8B, 0x8F, 0x92, 0x93, 0x97, 0x9B,
   0x9C, 0x9E, 0x9F, 0xA3, 0xA7, 0xAB, 0xAF, 0xB2, 0xB3, 0xB7, 0xBB, 0xBF,
   0xC3, 0xC7, 0xCB, 0xCF, 0xD2, 0xD3, 0xD7, 0xDB, 0xDF, 0xE3, 0xE7, 0xEB,
   0xEF, 0xF2, 0xF3, 0xF7, 0xFB, 0xFF]

set_option maxHeartbeats 1000000 in
set_option maxRecDepth 4000 in
/-- C9: every opcode byte without a dedicated arm in the dispatch reaches
the default arm, which only logs (outside the core state): the step returns
normally with PC advanced exactly one byte past the opcode, and A, X, Y, SP,
the status word and the whole memory unchanged. -/
theorem c9_unknown_opcode (cpu : Cpu) (mem : Memory)
    (hop : mem.read cpu.pc < 0x100)
    (h : mem.read cpu.pc ∉ implementedOpcodes) :
    exec_next_instr cpu mem = ({ cpu with pc := (cpu.pc + 1) % 0x10000 }, mem) := by
  simp only [exec_next_instr]
  generalize hv : mem.read cpu.pc = op at hop h
  have hmem : op ∈ unimplementedOpcodes := by
    have hall : ∀ o < 0x100, o ∉ implementedOpcodes → o ∈ unimplementedOpcodes := by
      decide
    exact hall op hop h
  clear h hop hv
  fin_cases hmem <;> rfl

/-- Witness for `c9_unknown_opcode` at opcode 0x02. -/
theorem c9_unknown_opcode_witness :
    ((Memory.new []).write 0 2).read Cpu.new.pc < 0x100 ∧
    ((Memory.new []).write 0 2).read Cpu.new.pc ∉ implementedOpcodes ∧
    exec_next_instr Cpu.new ((Memory.new []).write 0 2) =
      ({ Cpu.new with pc := (Cpu.new.pc + 1) % 0x10000 }, (Memory.new []).write 0 2) :=
  ⟨by decide, by decide,
   c9_unknown_opcode Cpu.new ((Memory.new []).write 0 2) (by decide) (by decide)⟩

/-! ### Claim C6 -/

/-- Unfolding of the JMP Indirect arm (cpu.rs lines 1469-1486). -/
theorem execOpcode_6C (cpu : Cpu) (memory : Memory) :
    execOpcode 0x6C cpu memory =
      (let addr_lo := memory.read cpu.pc
       let addr_hi := memory.read ((cpu.pc + 1) % 0x10000)
       let addr := (addr_hi <<< 8) ||| addr_lo
       let lo := memory.read addr
       let hi := if addr &&& 0xFF = 0xFF then memory.read (addr &&& 0xFF00)
                 else memory.read ((addr + 1) % 0x10000)
       ({ cpu with pc := (hi <<< 8) ||| lo }, memory)) := rfl

/-- C6: JMP indirect (opcode 0x6C) with operand pointer `p` loads PC with
the word whose low byte is `read(p)` and whose high byte is `read(p + 1)` —
except when the low byte of `p` is 0xFF, in which case the high byte comes
from `p & 0xFF00` (the 6502 page-wrap bug).  Memory is untouched. -/
theorem c6_jmp_indirect (cpu : Cpu) (mem : Memory) (hwf : mem.Wf)
    (hop : mem.read cpu.pc = 0x6C) :
    (exec_next_instr cpu mem).1.pc =
      (let p := 0x100 * mem.read ((cpu.pc + 2) % 0x10000) +
                mem.read ((cpu.pc + 1) % 0x10000)
       if p % 0x100 = 0xFF then
         0x100 * mem.read (p &&& 0xFF00) + mem.read p
       else
         0x100 * mem.read ((p + 1) % 0x10000) + mem.read p) ∧
    (exec_next_instr cpu mem).2 = mem := by
  simp only [exec_next_instr]
  rw [hop, execOpcode_6C]
  simp only []
  set pc1 := (cpu.pc + 1) % 0x10000 with hpc1
  have hpc2 : (pc1 + 1) % 0x10000 = (cpu.pc + 2) % 0x10000 := by
    simp only [hpc1]
    omega
  rw [hpc2]
  have hlo := mem.read_lt hwf pc1
  have haddr : (mem.read ((cpu.pc + 2) % 0x10000) <<< 8) ||| mem.read pc1 =
      0x100 * mem.read ((cpu.pc + 2) % 0x10000) + mem.read pc1 :=
    shl8_or_eq _ _ hlo
  rw [haddr, and_FF_eq_mod]
  constructor
  · split_ifs with hc
    · exact shl8_or_eq _ _ (mem.read_lt hwf _)
    · exact shl8_or_eq _ _ (mem.read_lt hwf _)
  · trivial

/-- Witness for `c6_jmp_indirect`: the claim's concrete scenario — pointer
0x02FF with mem[0x02FF] = 0x80, mem[0x0200] = 0x90, program `6C FF 02` at
0x8000 — lands on PC = 0x9080. -/
theorem c6_jmp_indirect_witness :
    (((Memory.new [0x6C, 0xFF, 0x02]).write 0x02FF 0x80).write 0x0200 0x90).read 0x8000
        = 0x6C ∧
    (exec_next_instr { Cpu.new with pc := 0x8000 }
        (((Memory.new [0x6C, 0xFF, 0x02]).write 0x02FF 0x80).write 0x0200 0x90)).1.pc
        = 0x9080 := by
  have hwf : (((Memory.new [0x6C, 0xFF, 0x02]).write 0x02FF 0x80).write 0x0200 0x90).Wf :=
    Memory.wf_write _ 0x0200 0x90
      (Memory.wf_write _ 0x02FF 0x80
        (Memory.wf_new [0x6C, 0xFF, 0x02] (by decide)) (by norm_num))
      (by norm_num)
  refine ⟨by decide, ?_⟩
  have h := c6_jmp_indirect { Cpu.new with pc := 0x8000 }
    (((Memory.new [0x6C, 0xFF, 0x02]).write 0x02FF 0x80).write 0x0200 0x90)
    hwf (by decide)
  rw [h.1]
  decide

/-! ### Claim C7 -/

/-- The stack page address `0x0100 | s` is `0x0100 + s` for a byte `s`. -/
theorem or_100_eq_add (s : Nat) (h : s < 0x100) : 0x0100 ||| s = 0x0100 + s := by
  have h2 := Nat.mul_add_lt_is_or (b := s) (i := 8) (by simpa using h) 1
  norm_num at h2
  exact h2.symm

/-- Reading a RAM address after writing a RAM address: the written value
comes back exactly when the two addresses mirror to the same cell. -/
theorem read_write_ram (m : Memory) (a a' v : Nat)
    (ha : a ≤ 0x1FFF) (ha' : a' ≤ 0x1FFF) :
    (m.write a v).read a' =
      if a' % 0x800 = a % 0x800 then v else m.read a' := by
  unfold Memory.write Memory.read
  rw [if_pos ha, if_pos ha', if_pos ha']

/-- Unfolding of the JSR Absolute arm (cpu.rs lines 1488-1501), with
`push_u16`/`push_u8` (cpu.rs lines 49-58) expanded.  `cpu.pc` here is the
address of the first operand byte (the opcode has been consumed). -/
theorem execOpcode_20 (cpu : Cpu) (memory : Memory) :
    execOpcode 0x20 cpu memory =
      ({ cpu with
           sp := ((cpu.sp + 0xFF) % 0x100 + 0xFF) % 0x100,
           pc := (memory.read ((cpu.pc + 1) % 0x10000) <<< 8) ||| memory.read cpu.pc },
       (memory.write (0x0100 ||| cpu.sp) ((((cpu.pc + 1) % 0x10000) >>> 8) % 0x100)).write
         (0x0100 ||| ((cpu.sp + 0xFF) % 0x100))
         ((((cpu.pc + 1) % 0x10000) &&& 0xFF) % 0x100)) := rfl

/-- Unfolding of the RTS arm (cpu.rs lines 1503-1516), with `pull_u16`
(cpu.rs lines 60-66) expanded. -/
theorem execOpcode_60 (cpu : Cpu) (memory : Memory) :
    execOpcode 0x60 cpu memory =
      ({ cpu with
           sp := ((cpu.sp + 1) % 0x100 + 1) % 0x100,
           pc := (((memory.read (0x0100 ||| (((cpu.sp + 1) % 0x100 + 1) % 0x100)) <<< 8) |||
                   memory.read (0x0100 ||| ((cpu.sp + 1) % 0x100))) + 1) % 0x10000 },
       memory) := rfl

/-- C7: JSR (0x20) pushes the address of its second operand byte
(`(pc + 2) % 2^16`, the return address minus one) high byte first (at
`0x0100 + SP`) then low byte (at `0x0100 + (SP - 1)`), decrements SP by two,
and jumps to the operand word.  A later RTS (0x60), run from any state whose
SP equals the post-JSR SP and whose memory still holds the two pushed bytes,
pulls low-then-high, sets PC to the pulled word plus one — the address of
the instruction following the 3-byte JSR — and restores SP to its pre-JSR
value. -/
theorem c7_jsr_rts (cpu : Cpu) (mem : Memory) (hwf : mem.Wf)
    (hsp : cpu.sp < 0x100) (hop : mem.read cpu.pc = 0x20) :
    (exec_next_instr cpu mem).1.pc =
      0x100 * mem.read ((cpu.pc + 2) % 0x10000) + mem.read ((cpu.pc + 1) % 0x10000) ∧
    (exec_next_instr cpu mem).1.sp = (cpu.sp + 0xFE) % 0x100 ∧
    (exec_next_instr cpu mem).2.read (0x0100 + cpu.sp) =
      ((cpu.pc + 2) % 0x10000) / 0x100 ∧
    (exec_next_instr cpu mem).2.read (0x0100 + (cpu.sp + 0xFF) % 0x100) =
      ((cpu.pc + 2) % 0x10000) % 0x100 ∧
    (∀ cpu2 mem2,
      cpu2.sp = (cpu.sp + 0xFE) % 0x100 →
      mem2.read (0x0100 + cpu.sp) = ((cpu.pc + 2) % 0x10000) / 0x100 →
      mem2.read (0x0100 + (cpu.sp + 0xFF) % 0x100) = ((cpu.pc + 2) % 0x10000) % 0x100 →
      mem2.read cpu2.pc = 0x60 →
      (exec_next_instr cpu2 mem2).1.pc = (cpu.pc + 3) % 0x10000 ∧
      (exec_next_instr cpu2 mem2).1.sp = cpu.sp) := by
  have hsp1 : (cpu.sp + 0xFF) % 0x100 < 0x100 := Nat.mod_lt _ (by norm_num)
  have hor0 : (0x0100 : Nat) ||| cpu.sp = 0x0100 + cpu.sp := or_100_eq_add _ hsp
  have hor1 : (0x0100 : Nat) ||| ((cpu.sp + 0xFF) % 0x100) =
      0x0100 + (cpu.sp + 0xFF) % 0x100 := or_100_eq_add _ hsp1
  -- the return-minus-one word and the two pushed bytes
  set ret := (cpu.pc + 2) % 0x10000 with hret
  have hretlt : ret < 0x10000 := Nat.mod_lt _ (by norm_num)
  have hpow : (2 : Nat) ^ 8 = 256 := by norm_num
  have hv1 : (ret >>> 8) % 0x100 = ret / 0x100 := by
    rw [Nat.shiftRight_eq_div_pow, hpow]
    omega
  have hv2 : (ret &&& 0xFF) % 0x100 = ret % 0x100 := by
    rw [and_FF_eq_mod]
    omega
  -- JSR step
  simp only [exec_next_instr]
  rw [hop, execOpcode_20]
  dsimp only
  have hpc2 : ((cpu.pc + 1) % 0x10000 + 1) % 0x10000 = ret := by omega
  rw [hpc2, hv1, hv2, hor0, hor1]
  have haddr0 : 0x0100 + cpu.sp ≤ 0x1FFF := by omega
  have haddr1 : 0x0100 + (cpu.sp + 0xFF) % 0x100 ≤ 0x1FFF := by omega
  have hne : ¬ (0x0100 + cpu.sp) % 0x800 = (0x0100 + (cpu.sp + 0xFF) % 0x100) % 0x800 := by
    omega
  have hrd0 :
      ((mem.write (0x0100 + cpu.sp) (ret / 0x100)).write
        (0x0100 + (cpu.sp + 0xFF) % 0x100) (ret % 0x100)).read (0x0100 + cpu.sp) =
      ret / 0x100 := by
    rw [read_write_ram _ _ _ _ haddr1 haddr0, if_neg hne,
        read_write_ram _ _ _ _ haddr0 haddr0, if_pos rfl]
  have hrd1 :
      ((mem.write (0x0100 + cpu.sp) (ret / 0x100)).write
        (0x0100 + (cpu.sp + 0xFF) % 0x100) (ret % 0x100)).read
        (0x0100 + (cpu.sp + 0xFF) % 0x100) = ret % 0x100 := by
    rw [read_write_ram _ _ _ _ haddr1 haddr1, if_pos rfl]
  refine ⟨?_, by omega, hrd0, hrd1, ?_⟩
  · exact shl8_or_eq _ _ (mem.read_lt hwf _)
  · intro cpu2 mem2 h2sp h2hi h2lo h2op
    rw [h2op, execOpcode_60]
    dsimp only
    have e1 : (cpu2.sp + 1) % 0x100 = (cpu.sp + 0xFF) % 0x100 := by omega
    have e2 : ((cpu.sp + 0xFF) % 0x100 + 1) % 0x100 = cpu.sp := by omega
    rw [e1, e2, hor0, hor1, h2hi, h2lo]
    constructor
    · rw [shl8_or_eq _ _ (Nat.mod_lt _ (by norm_num))]
      omega
    · rfl

/-! ### Claim C8 -/

/-- Unfolding of the PLP arm (cpu.rs lines 680-688). -/
theorem execOpcode_28 (cpu : Cpu) (memory : Memory) :
    execOpcode 0x28 cpu memory =
      ({ cpu with
           sp := (cpu.sp + 1) % 0x100,
           status := (memory.read (0x0100 ||| ((cpu.sp + 1) % 0x100)) &&& 0b11001111) |||
                     (cpu.status &&& 0b00110000) }, memory) := rfl

/-- Unfolding of the RTI arm (cpu.rs lines 1674-1677), with `pull_status`
(cpu.rs lines 69-74) and `pull_u16` (cpu.rs lines 60-66) expanded. -/
theorem execOpcode_40 (cpu : Cpu) (memory : Memory) :
    execOpcode 0x40 cpu memory =
      ({ cpu with
           sp := (((cpu.sp + 1) % 0x100 + 1) % 0x100 + 1) % 0x100,
           status := (memory.read (0x0100 ||| ((cpu.sp + 1) % 0x100)) &&& 0b11001111) |||
                     (cpu.status &&& 0b00110000),
           pc := (memory.read
                    (0x0100 ||| ((((cpu.sp + 1) % 0x100 + 1) % 0x100 + 1) % 0x100)) <<< 8) |||
                 memory.read (0x0100 ||| (((cpu.sp + 1) % 0x100 + 1) % 0x100)) },
       memory) := rfl

/-- C8: both instructions that pull the status word (PLP 0x28 via its inline
arm, RTI 0x40 via `pull_status`) keep bits 4 (B) and 5 (U) of P at their
pre-instruction values and take bits 0-3, 6 and 7 from the pulled byte
(read at `0x0100 | (SP + 1)`). -/
theorem c8_pull_status_preserves_BU (cpu : Cpu) (mem : Memory)
    (hop : mem.read cpu.pc = 0x28 ∨ mem.read cpu.pc = 0x40) :
    (exec_next_instr cpu mem).1.status.testBit 4 = cpu.status.testBit 4 ∧
    (exec_next_instr cpu mem).1.status.testBit 5 = cpu.status.testBit 5 ∧
    (exec_next_instr cpu mem).1.status.testBit 0 =
      (mem.read (0x0100 ||| ((cpu.sp + 1) % 0x100))).testBit 0 ∧
    (exec_next_instr cpu mem).1.status.testBit 1 =
      (mem.read (0x0100 ||| ((cpu.sp + 1) % 0x100))).testBit 1 ∧
    (exec_next_instr cpu mem).1.status.testBit 2 =
      (mem.read (0x0100 ||| ((cpu.sp + 1) % 0x100))).testBit 2 ∧
    (exec_next_instr cpu mem).1.status.testBit 3 =
      (mem.read (0x0100 ||| ((cpu.sp + 1) % 0x100))).testBit 3 ∧
    (exec_next_instr cpu mem).1.status.testBit 6 =
      (mem.read (0x0100 ||| ((cpu.sp + 1) % 0x100))).testBit 6 ∧
    (exec_next_instr cpu mem).1.status.testBit 7 =
      (mem.read (0x0100 ||| ((cpu.sp + 1) % 0x100))).testBit 7 := by
  rcases hop with h | h <;>
    [(simp only [exec_next_instr]; rw [h, execOpcode_28]);
     (simp only [exec_next_instr]; rw [h, execOpcode_40])] <;>
  refine ⟨?_, ?_, ?_, ?_, ?_, ?_, ?_, ?_⟩ <;>
    simp [Nat.testBit_or, Nat.testBit_and,
          (by decide : Nat.testBit 0b11001111 0 = true),
          (by decide : Nat.testBit 0b11001111 1 = true),
          (by decide : Nat.testBit 0b11001111 2 = true),
          (by decide : Nat.testBit 0b11001111 3 = true),
          (by decide : Nat.testBit 0b11001111 4 = false),
          (by decide : Nat.testBit 0b11001111 5 = false),
          (by decide : Nat.testBit 0b11001111 6 = true),
          (by decide : Nat.testBit 0b11001111 7 = true),
          (by decide : Nat.testBit 0b00110000 0 = false),
          (by decide : Nat.testBit 0b00110000 1 = false),
          (by decide : Nat.testBit 0b00110000 2 = false),
          (by decide : Nat.testBit 0b00110000 3 = false),
          (by decide : Nat.testBit 0b00110000 4 = true),
          (by decide : Nat.testBit 0b00110000 5 = true),
          (by decide : Nat.testBit 0b00110000 6 = false),
          (by decide : Nat.testBit 0b00110000 7 = false)]

/-- Witness for `c7_jsr_rts`: `JSR $9000` at 0x8000 with SP = 0xFD. -/
theorem c7_jsr_rts_witness :
    (exec_next_instr { pc := 0x8000, sp := 0xFD, a := 0, x := 0, y := 0, status := 0x24 }
        (Memory.new [0x20, 0x00, 0x90])).1.pc =
      0x100 * (Memory.new [0x20, 0x00, 0x90]).read ((0x8000 + 2) % 0x10000) +
        (Memory.new [0x20, 0x00, 0x90]).read ((0x8000 + 1) % 0x10000) ∧
    (exec_next_instr { pc := 0x8000, sp := 0xFD, a := 0, x := 0, y := 0, status := 0x24 }
        (Memory.new [0x20, 0x00, 0x90])).1.sp = (0xFD + 0xFE) % 0x100 ∧
    (exec_next_instr { pc := 0x8000, sp := 0xFD, a := 0, x := 0, y := 0, status := 0x24 }
        (Memory.new [0x20, 0x00, 0x90])).2.read (0x0100 + 0xFD) =
      ((0x8000 + 2) % 0x10000) / 0x100 ∧
    (exec_next_instr { pc := 0x8000, sp := 0xFD, a := 0, x := 0, y := 0, status := 0x24 }
        (Memory.new [0x20, 0x00, 0x90])).2.read (0x0100 + (0xFD + 0xFF) % 0x100) =
      ((0x8000 + 2) % 0x10000) % 0x100 ∧
    (∀ cpu2 mem2,
      cpu2.sp = (0xFD + 0xFE) % 0x100 →
      mem2.read (0x0100 + 0xFD) = ((0x8000 + 2) % 0x10000) / 0x100 →
      mem2.read (0x0100 + (0xFD + 0xFF) % 0x100) = ((0x8000 + 2) % 0x10000) % 0x100 →
      mem2.read cpu2.pc = 0x60 →
      (exec_next_instr cpu2 mem2).1.pc = (0x8000 + 3) % 0x10000 ∧
      (exec_next_instr cpu2 mem2).1.sp = 0xFD) :=
  c7_jsr_rts { pc := 0x8000, sp := 0xFD, a := 0, x := 0, y := 0, status := 0x24 }
    (Memory.new [0x20, 0x00, 0x90])
    (Memory.wf_new _ (by decide)) (by decide) (by decide)

/-- Witness for `c8_pull_status_preserves_BU`: PLP at address 0. -/
theorem c8_pull_status_witness :
    (exec_next_instr { pc := 0, sp := 0xFD, a := 0, x := 0, y := 0, status := 0x34 }
        ((Memory.new []).write 0 0x28)).1.status.testBit 4 =
      (0x34 : Nat).testBit 4 ∧
    (exec_next_instr { pc := 0, sp := 0xFD, a := 0, x := 0, y := 0, status := 0x34 }
        ((Memory.new []).write 0 0x28)).1.status.testBit 5 =
      (0x34 : Nat).testBit 5 ∧
    (exec_next_instr { pc := 0, sp := 0xFD, a := 0, x := 0, y := 0, status := 0x34 }
        ((Memory.new []).write 0 0x28)).1.status.testBit 0 =
      (((Memory.new []).write 0 0x28).read (0x0100 ||| ((0xFD + 1) % 0x100))).testBit 0 ∧
    (exec_next_instr { pc := 0, sp := 0xFD, a := 0, x := 0, y := 0, status := 0x34 }
        ((Memory.new []).write 0 0x28)).1.status.testBit 1 =
      (((Memory.new []).write 0 0x28).read (0x0100 ||| ((0xFD + 1) % 0x100))).testBit 1 ∧
    (exec_next_instr { pc := 0, sp := 0xFD, a := 0, x := 0, y := 0, status := 0x34 }
        ((Memory.new []).write 0 0x28)).1.status.testBit 2 =
      (((Memory.new []).write 0 0x28).read (0x0100 ||| ((0xFD + 1) % 0x100))).testBit 2 ∧
    (exec_next_instr { pc := 0, sp := 0xFD, a := 0, x := 0, y := 0, status := 0x34 }
        ((Memory.new []).write 0 0x28)).1.status.testBit 3 =
      (((Memory.new []).write 0 0x28).read (0x0100 ||| ((0xFD + 1) % 0x100))).testBit 3 ∧
    (exec_next_instr { pc := 0, sp := 0xFD, a := 0, x := 0, y := 0, status := 0x34 }
        ((Memory.new []).write 0 0x28)).1.status.testBit 6 =
      (((Memory.new []).write 0 0x28).read (0x0100 ||| ((0xFD + 1) % 0x100))).testBit 6 ∧
    (exec_next_instr { pc := 0, sp := 0xFD, a := 0, x := 0, y := 0, status := 0x34 }
        ((Memory.new []).write 0 0x28)).1.status.testBit 7 =
      (((Memory.new []).write 0 0x28).read (0x0100 ||| ((0xFD + 1) % 0x100))).testBit 7 :=
  c8_pull_status_preserves_BU
    { pc := 0, sp := 0xFD, a := 0, x := 0, y := 0, status := 0x34 }
    ((Memory.new []).write 0 0x28) (Or.inl (by decide))

/-! ### Claim C3 -/

set_option maxRecDepth 2000 in
/-- XOR with 0xFF complements a byte. -/
theorem xor_FF_eq : ∀ m < 0x100, m ^^^ 0xFF = 0xFF - m := by decide

/-- Testing against mask 0x80 is testing bit 7. -/
theorem and80_ne_iff (x : Nat) : x &&& 0x80 ≠ 0 ↔ x.testBit 7 = true := by
  have h := Nat.and_two_pow x 7
  norm_num at h
  rw [h]
  cases hx : x.testBit 7 <;> simp

/-- Bit 7 survives truncation to a byte. -/
theorem testBit7_mod256 (x : Nat) : (x % 0x100).testBit 7 = x.testBit 7 := by
  have h := Nat.testBit_mod_two_pow x 8 7
  norm_num at h
  exact h

/-- The sign-overlap test only looks at bit 7, so the untruncated 16-bit
result and its low byte are interchangeable in it. -/
theorem and80_xor_mod (u a r : Nat) :
    (u &&& (a ^^^ r) &&& 0x80 ≠ 0) ↔ (u &&& (a ^^^ (r % 0x100)) &&& 0x80 ≠ 0) := by
  rw [and80_ne_iff, and80_ne_iff, Nat.testBit_and, Nat.testBit_and,
      Nat.testBit_xor, Nat.testBit_xor, testBit7_mod256]

/-- Through a flag-update step `if p then x ||| c else x &&& d` that does not
touch bit `k` (`c` clear, `d` set there), `testBit k` passes unchanged. -/
theorem testBit_ite_mask (p : Prop) [Decidable p] (x c d k : Nat)
    (hc : c.testBit k = false) (hd : d.testBit k = true) :
    (if p then x ||| c else x &&& d).testBit k = x.testBit k := by
  split_ifs <;> simp [Nat.testBit_or, Nat.testBit_and, hc, hd]

/-- A flag-update step `if p then x ||| c else x &&& d` that owns bit `k`
(`c` set, `d` clear there) overwrites it with the condition. -/
theorem testBit_ite_set (p : Prop) [Decidable p] (x c d k : Nat)
    (hc : c.testBit k = true) (hd : d.testBit k = false) :
    (if p then x ||| c else x &&& d).testBit k = decide p := by
  split_ifs with h <;> simp [Nat.testBit_or, Nat.testBit_and, hc, hd, h]

/-- Structural characterization of `sbc` (cpu.rs lines 119-159): the stored
byte and each written flag bit, phrased on the raw 16-bit wrapped result. -/
theorem sbc_bits (cpu : Cpu) (operand : Nat) :
    (sbc cpu operand).a =
      (((cpu.a + 0x10000 - operand) % 0x10000 + 0x10000 -
        (if cpu.status &&& 1 = 0 then 1 else 0)) % 0x10000) % 0x100 ∧
    ((sbc cpu operand).status.testBit 0 = true ↔
      ((cpu.a + 0x10000 - operand) % 0x10000 + 0x10000 -
        (if cpu.status &&& 1 = 0 then 1 else 0)) % 0x10000 ≤ 0xFF) ∧
    ((sbc cpu operand).status.testBit 1 = true ↔
      (((cpu.a + 0x10000 - operand) % 0x10000 + 0x10000 -
        (if cpu.status &&& 1 = 0 then 1 else 0)) % 0x10000) % 0x100 = 0) ∧
    ((sbc cpu operand).status.testBit 7 = true ↔
      (((cpu.a + 0x10000 - operand) % 0x10000 + 0x10000 -
        (if cpu.status &&& 1 = 0 then 1 else 0)) % 0x10000) % 0x100 &&& 0x80 ≠ 0) ∧
    ((sbc cpu operand).status.testBit 6 = true ↔
      (cpu.a ^^^ operand) &&&
        (cpu.a ^^^ (((cpu.a + 0x10000 - operand) % 0x10000 + 0x10000 -
          (if cpu.status &&& 1 = 0 then 1 else 0)) % 0x10000)) &&& 0x80 ≠ 0) := by
  simp only [sbc]
  refine ⟨by trivial, ?_, ?_, ?_, ?_⟩
  · -- carry, bit 0
    rw [testBit_ite_mask _ _ 0x40 0xBF 0 (by decide) (by decide),
        testBit_ite_mask _ _ 0x80 0x7F 0 (by decide) (by decide),
        testBit_ite_mask _ _ 2 0xFD 0 (by decide) (by decide),
        testBit_ite_set _ _ 1 0xFE 0 (by decide) (by decide),
        decide_eq_true_eq]
  · -- zero, bit 1
    rw [testBit_ite_mask _ _ 0x40 0xBF 1 (by decide) (by decide),
        testBit_ite_mask _ _ 0x80 0x7F 1 (by decide) (by decide),
        testBit_ite_set _ _ 2 0xFD 1 (by decide) (by decide),
        decide_eq_true_eq]
  · -- negative, bit 7
    rw [testBit_ite_mask _ _ 0x40 0xBF 7 (by decide) (by decide),
        testBit_ite_set _ _ 0x80 0x7F 7 (by decide) (by decide),
        decide_eq_true_eq]
  · -- overflow, bit 6
    rw [testBit_ite_set _ _ 0x40 0xBF 6 (by decide) (by decide),
        decide_eq_true_eq]

/-- C3: SBC stores the low byte of `A - M - (1 - C)` in A; the carry flag is
set iff no borrow occurred, i.e. iff the 9-bit sum `A + (M XOR 0xFF) + C` is
at least 0x100, equivalently iff `M + (1 - C) ≤ A`; V is set iff
`(A ^ M) & (A ^ result) & 0x80` is nonzero (result = the stored byte); the
Z and N flags reflect the stored byte. -/
theorem c3_sbc (cpu : Cpu) (operand : Nat) (ha : cpu.a < 0x100)
    (hm : operand < 0x100) :
    (sbc cpu operand).a =
      (cpu.a + 0x100 - operand - (1 - (cpu.status &&& 1))) % 0x100 ∧
    ((sbc cpu operand).status.testBit 0 = true ↔
      0x100 ≤ cpu.a + (operand ^^^ 0xFF) + (cpu.status &&& 1)) ∧
    ((sbc cpu operand).status.testBit 0 = true ↔
      operand + (1 - (cpu.status &&& 1)) ≤ cpu.a) ∧
    ((sbc cpu operand).status.testBit 6 = true ↔
      (cpu.a ^^^ operand) &&& (cpu.a ^^^ (sbc cpu operand).a) &&& 0x80 ≠ 0) ∧
    ((sbc cpu operand).status.testBit 1 = true ↔ (sbc cpu operand).a = 0) ∧
    ((sbc cpu operand).status.testBit 7 = (sbc cpu operand).a.testBit 7) := by
  obtain ⟨hA, h0, h1, h7, h6⟩ := sbc_bits cpu operand
  have hxor := xor_FF_eq operand hm
  have hc1 : cpu.status &&& 1 ≤ 1 := by
    rw [Nat.and_one_is_mod]
    omega
  by_cases hz : cpu.status &&& 1 = 0 <;>
    [(rw [if_pos hz] at hA h0 h1 h7 h6; rw [hz]);
     (rw [if_neg hz] at hA h0 h1 h7 h6;
      rw [show cpu.status &&& 1 = 1 by omega])] <;>
  · refine ⟨?_, ?_, ?_, ?_, ?_, ?_⟩
    · rw [hA]
      omega
    · rw [h0, hxor]
      constructor <;> intro h <;> omega
    · rw [h0]
      constructor <;> intro h <;> omega
    · rw [h6, hA]
      exact and80_xor_mod _ _ _
    · rw [h1, hA]
    · rw [hA]
      apply Bool.eq_iff_iff.mpr
      rw [h7, and80_ne_iff, testBit7_mod256]

/-- Witness for `c3_sbc` at A = 0x50, M = 0xF0, C = 1 (status 0x01). -/
theorem c3_sbc_witness :
    ((0x50 : Nat) < 0x100 ∧ (0xF0 : Nat) < 0x100) ∧
    ((sbc { pc := 0, sp := 0xFD, a := 0x50, x := 0, y := 0, status := 0x01 } 0xF0).a =
      (0x50 + 0x100 - 0xF0 - (1 - ((0x01 : Nat) &&& 1))) % 0x100 ∧
    ((sbc { pc := 0, sp := 0xFD, a := 0x50, x := 0, y := 0, status := 0x01 }
        0xF0).status.testBit 0 = true ↔
      0x100 ≤ 0x50 + ((0xF0 : Nat) ^^^ 0xFF) + ((0x01 : Nat) &&& 1)) ∧
    ((sbc { pc := 0, sp := 0xFD, a := 0x50, x := 0, y := 0, status := 0x01 }
        0xF0).status.testBit 0 = true ↔
      0xF0 + (1 - ((0x01 : Nat) &&& 1)) ≤ 0x50) ∧
    ((sbc { pc := 0, sp := 0xFD, a := 0x50, x := 0, y := 0, status := 0x01 }
        0xF0).status.testBit 6 = true ↔
      ((0x50 : Nat) ^^^ 0xF0) &&&
        ((0x50 : Nat) ^^^
          (sbc { pc := 0, sp := 0xFD, a := 0x50, x := 0, y := 0, status := 0x01 } 0xF0).a) &&&
        0x80 ≠ 0) ∧
    ((sbc { pc := 0, sp := 0xFD, a := 0x50, x := 0, y := 0, status := 0x01 }
        0xF0).status.testBit 1 = true ↔
      (sbc { pc := 0, sp := 0xFD, a := 0x50, x := 0, y := 0, status := 0x01 } 0xF0).a = 0) ∧
    ((sbc { pc := 0, sp := 0xFD, a := 0x50, x := 0, y := 0, status := 0x01 }
        0xF0).status.testBit 7 =
      (sbc { pc := 0, sp := 0xFD, a := 0x50, x := 0, y := 0, status := 0x01 }
        0xF0).a.testBit 7)) :=
  ⟨⟨by decide, by decide⟩,
   c3_sbc { pc := 0, sp := 0xFD, a := 0x50, x := 0, y := 0, status := 0x01 } 0xF0
     (by decide) (by decide)⟩

/-! ### Claim C1 -/

/-- C1: the claim says BRK pushes `P | 0x30` (bits 4 and 5 both forced).
The first — and therefore the executing — `0x00` arm (cpu.rs lines 519-525)
pushes `P | 0x10` instead: bit 5 of the pushed status is NOT forced.
Evaluated at P = 0x04 (bit 5 clear): the byte pushed to the stack (address
0x01FB, after PC high/low went to 0x01FD/0x01FC) is 0x14, whereas
`P | 0x30 = 0x34`.  The unreachable second arm (cpu.rs lines 1665-1672)
would have pushed `P | 0b00110000`, matching the claim; the first arm
shadows it. -/
theorem c1_brk_pushes_status_without_U :
    (exec_next_instr { pc := 0, sp := 0xFD, a := 0, x := 0, y := 0, status := 0x04 }
        (Memory.new [])).2.read 0x01FB = 0x14 ∧
    (0x14 : Nat) ≠ 0x04 ||| 0x30 := by
  constructor
  · rfl
  · decide

/-! ### Claim C2 -/

/-- C2: the claim says LSR sets Z iff the result is zero.  The `lsr` helper
(cpu.rs lines 220-234) has the Z/N update commented out and only forces
N = 0, so Z is left unchanged.  Evaluated via opcode 0x4A with A = 1 and
P = 0: the result is 0 but the resulting status word is 0x01 (carry only) —
its zero bit is still clear.  C from bit 0, the shifted result, and the
forced N = 0 all match the claim. -/
theorem c2_lsr_does_not_update_zero :
    (exec_next_instr { pc := 0, sp := 0xFD, a := 1, x := 0, y := 0, status := 0 }
        ((Memory.new []).write 0 0x4A)).1.a = 0 ∧
    (exec_next_instr { pc := 0, sp := 0xFD, a := 1, x := 0, y := 0, status := 0 }
        ((Memory.new []).write 0 0x4A)).1.status = 0x01 ∧
    Nat.testBit 0x01 1 = false := by
  refine ⟨rfl, rfl, by decide⟩

end NesEmu
